import Mathlib

/-!
Verification development for the AutoTestAI test-generation service.

The TypeScript sources are shallowly embedded: pure helper functions become
Lean functions over `String`/`List Char`; the external model provider
(`generateText` from the "ai" package), `Math.random`, `Date` and id
generation are an explicit oracle environment `Env`; fallible code returns
`Except JsError`/`Option`; the SQLite tables touched by the embedded routes
are lists of row structures.  JavaScript strings are modelled as Lean
`String` (sequences of unicode scalar values; the UTF-16 length distinction
does not matter to any embedded code path).
-/

namespace AutoTestAI

/-! ## JavaScript string primitives -/

/-- ASCII whitespace matched by the `\s` class in the source's regular
expressions and by `String.prototype.trim` (the exotic unicode space code
points are not modelled; no embedded input contains them). -/
def jsWs (c : Char) : Bool :=
  c = ' ' || c = '\t' || c = '\n' || c = '\r' || c = '\x0b' || c = '\x0c'

/-- Model of `s.substring(0, n)`. -/
def substrTake (s : String) (n : Nat) : String := ⟨s.data.take n⟩

/-- Contiguous-sublist test used to model `String.prototype.includes`. -/
def isInfixL : List Char → List Char → Bool
  | sub, [] => sub.isEmpty
  | sub, c :: cs => sub.isPrefixOf (c :: cs) || isInfixL sub cs

/-- Model of `a.includes(b)` on strings (contiguous substring test). -/
def jsIncludes (s sub : String) : Bool := isInfixL sub.data s.data

/-- Drops a leading run of JavaScript whitespace, as the `\s*` tail of the
code-fence regular expressions does. -/
def dropWsRun : List Char → List Char
  | [] => []
  | c :: cs => if jsWs c then dropWsRun cs else c :: cs

/-- Model of `text.replace(/<tok>\s*/g, "")`: left-to-right non-overlapping
replacement of the literal token followed by a whitespace run.  The
`skipping` flag is true while the whitespace run after a just-removed token
is being consumed.  Fuel keeps the recursion structural; every step
consumes at least one input character, so fuel equal to the input length
(as the wrapper below supplies) never runs out.  (The function is only
ever applied with a non-empty token; on an empty token it stops, where
JavaScript would loop.) -/
def replaceTokWs (tok : List Char) : Nat → Bool → List Char → List Char
  | 0, _, l => l
  | _ + 1, _, [] => []
  | fuel + 1, skipping, c :: cs =>
    if skipping && jsWs c then replaceTokWs tok fuel true cs
    else
      match tok with
      | [] => c :: cs
      | _ :: ts =>
        if tok.isPrefixOf (c :: cs) then replaceTokWs tok fuel true (cs.drop ts.length)
        else c :: replaceTokWs tok fuel false cs

/-- Model of `s.indexOf(c)` (as `some` index, `none` for `-1`). -/
def firstIdxOf : List Char → Char → Option Nat
  | [], _ => none
  | x :: xs, c => if x = c then some 0 else (firstIdxOf xs c).map (· + 1)

/-- Model of `s.lastIndexOf(c)` (as `some` index, `none` for `-1`). -/
def lastIdxOf (l : List Char) (c : Char) : Option Nat :=
  match firstIdxOf l.reverse c with
  | none => none
  | some i => some (l.length - 1 - i)

/-- Model of `s.split("\n")` (splitting on a single newline separator). -/
def splitNlAux : List Char → List Char → List String
  | acc, [] => [⟨acc.reverse⟩]
  | acc, c :: cs =>
    if c = '\n' then (⟨acc.reverse⟩ : String) :: splitNlAux [] cs
    else splitNlAux (c :: acc) cs

/-- String form of `splitNlAux`. -/
def splitNl (s : String) : List String := splitNlAux [] s.data

/-- Model of `lines.join("\n")`. -/
def joinNl : List String → String
  | [] => ""
  | [s] => s
  | s :: t :: ts => s ++ "\n" ++ joinNl (t :: ts)

/-- Model of `s.trim()`. -/
def trimJs (s : String) : String :=
  ⟨(dropWsRun (dropWsRun s.data).reverse).reverse⟩

/-! ## JSON values

The repository calls the JavaScript builtins `JSON.stringify` and
`JSON.parse`.  Both are embedded concretely over the value type `Json`
below so that the metadata round-trip can be proved rather than assumed.
Numbers are modelled as integers (every number the embedded code serializes
is an integer); fractions and exponents are therefore not parsed, and `\u`
escapes outside the unicode scalar range are not representable. -/

inductive Json where
  | null : Json
  | bool : Bool → Json
  | num : Int → Json
  | str : String → Json
  | arr : List Json → Json
  | obj : List (String × Json) → Json

/-- Property lookup `o[key]` on an object value; `none` models `undefined`
(property access on a non-object base, which would throw in JavaScript, is
only reached in the embedded code under enclosing `try/catch` blocks whose
both branches are proved to the same conclusions, and is modelled as
`undefined`). -/
def Json.getKey : Json → String → Option Json
  | .obj kvs, key => (kvs.find? (fun kv => kv.1 = key)).map (fun kv => kv.2)
  | _, _ => none

/-- Truthiness of a JavaScript value, used by `||` defaults in the source. -/
def Json.truthy : Json → Bool
  | .null => false
  | .bool b => b
  | .num n => !(n = 0)
  | .str s => !(s = "")
  | .arr _ => true
  | .obj _ => true

/-- Lowercase hexadecimal digit, as `JSON.stringify` emits in `\u00xx`. -/
def hexDigitChar (n : Nat) : Char :=
  if n < 10 then Char.ofNat (48 + n) else Char.ofNat (87 + n)

/-- Escape of one character inside a JSON string literal, following
`JSON.stringify`: the two structural characters, the five named control
escapes, `\u00xx` for the remaining control characters, and every other
character unchanged. -/
def jsonEscapeChar (c : Char) : List Char :=
  if c = '"' then ['\\', '"']
  else if c = '\\' then ['\\', '\\']
  else if c = '\x08' then ['\\', 'b']
  else if c = '\x0c' then ['\\', 'f']
  else if c = '\n' then ['\\', 'n']
  else if c = '\r' then ['\\', 'r']
  else if c = '\t' then ['\\', 't']
  else if c.toNat < 32 then ['\\', 'u', '0', '0', hexDigitChar (c.toNat / 16), hexDigitChar (c.toNat % 16)]
  else [c]

/-- Escape of a whole string body. -/
def jsonEscape (cs : List Char) : List Char := cs.flatMap jsonEscapeChar

/-- Decimal digit character. -/
def digitChar (n : Nat) : Char := Char.ofNat (48 + n)

/-- Decimal digits of a positive number, least significant first. -/
def natDigitsRev : Nat → List Char
  | 0 => []
  | n + 1 => digitChar ((n + 1) % 10) :: natDigitsRev ((n + 1) / 10)
decreasing_by exact Nat.div_lt_self (Nat.succ_pos n) (by omega)

/-- Decimal representation of a natural number. -/
def natChars (n : Nat) : List Char := if n = 0 then ['0'] else (natDigitsRev n).reverse

/-- Decimal representation of an integer. -/
def intChars (i : Int) : List Char :=
  if i < 0 then '-' :: natChars i.natAbs else natChars i.natAbs

mutual

/-- Model of `JSON.stringify` over `Json`, producing the character list.
Object members keep insertion order, with no added whitespace, exactly as
the builtin prints. -/
def stringifyV : Json → List Char
  | .null => "null".data
  | .bool true => "true".data
  | .bool false => "false".data
  | .num i => intChars i
  | .str s => '"' :: (jsonEscape s.data ++ ['"'])
  | .arr xs => '[' :: (stringifyItems xs ++ [']'])
  | .obj kvs => '\x7b' :: (stringifyMembers kvs ++ ['\x7d'])

/-- Comma-separated rendering of array elements. -/
def stringifyItems : List Json → List Char
  | [] => []
  | [x] => stringifyV x
  | x :: y :: ys => stringifyV x ++ ',' :: stringifyItems (y :: ys)

/-- Comma-separated rendering of object members. -/
def stringifyMembers : List (String × Json) → List Char
  | [] => []
  | [(k, v)] => '"' :: (jsonEscape k.data ++ '"' :: ':' :: stringifyV v)
  | (k, v) :: m :: ms =>
    '"' :: (jsonEscape k.data ++ '"' :: ':' :: stringifyV v ++ ',' :: stringifyMembers (m :: ms))

end

/-- String form of `JSON.stringify`. -/
def Json.stringify (v : Json) : String := ⟨stringifyV v⟩

/-- JSON whitespace accepted between tokens by `JSON.parse`. -/
def skipWs : List Char → List Char
  | [] => []
  | c :: cs => if c = ' ' || c = '\t' || c = '\n' || c = '\r' then skipWs cs else c :: cs

/-- Value of one hexadecimal digit. -/
def hexVal (c : Char) : Option Nat :=
  if 48 ≤ c.toNat && c.toNat ≤ 57 then some (c.toNat - 48)
  else if 97 ≤ c.toNat && c.toNat ≤ 102 then some (c.toNat - 87)
  else if 65 ≤ c.toNat && c.toNat ≤ 70 then some (c.toNat - 55)
  else none

/-- Decimal digit test. -/
def isDigitC (c : Char) : Bool := 48 ≤ c.toNat && c.toNat ≤ 57

/-- Longest leading run of decimal digits. -/
def spanDigits : List Char → List Char × List Char
  | [] => ([], [])
  | c :: cs =>
    if isDigitC c then
      let p := spanDigits cs
      (c :: p.1, p.2)
    else ([], c :: cs)

/-- Numeric value of a digit run. -/
def digitsVal (ds : List Char) : Nat := ds.foldl (fun a c => a * 10 + (c.toNat - 48)) 0

/-- Parser for the body of a JSON string literal (after the opening quote),
returning the decoded characters and the input after the closing quote. -/
def parseStrBody : List Char → Option (List Char × List Char)
  | [] => none
  | c :: cs =>
    if c = '"' then some ([], cs)
    else if c = '\\' then
      match cs with
      | [] => none
      | e :: cs2 =>
        if e = '"' then (parseStrBody cs2).map (fun p => ('"' :: p.1, p.2))
        else if e = '\\' then (parseStrBody cs2).map (fun p => ('\\' :: p.1, p.2))
        else if e = '/' then (parseStrBody cs2).map (fun p => ('/' :: p.1, p.2))
        else if e = 'b' then (parseStrBody cs2).map (fun p => ('\x08' :: p.1, p.2))
        else if e = 'f' then (parseStrBody cs2).map (fun p => ('\x0c' :: p.1, p.2))
        else if e = 'n' then (parseStrBody cs2).map (fun p => ('\n' :: p.1, p.2))
        else if e = 'r' then (parseStrBody cs2).map (fun p => ('\r' :: p.1, p.2))
        else if e = 't' then (parseStrBody cs2).map (fun p => ('\t' :: p.1, p.2))
        else if e = 'u' then
          match cs2 with
          | h1 :: h2 :: h3 :: h4 :: cs3 =>
            match hexVal h1, hexVal h2, hexVal h3, hexVal h4 with
            | some v1, some v2, some v3, some v4 =>
              (parseStrBody cs3).map
                (fun p => (Char.ofNat (((v1 * 16 + v2) * 16 + v3) * 16 + v4) :: p.1, p.2))
            | _, _, _, _ => none
          | _ => none
        else none
    else if c.toNat < 32 then none
    else (parseStrBody cs).map (fun p => (c :: p.1, p.2))
termination_by l => l.length
decreasing_by all_goals simp_arith

mutual

/-- Fuel-indexed recursive-descent parser for one JSON value; consumes
leading whitespace, then exactly the value. -/
def parseVal : Nat → List Char → Option (Json × List Char)
  | 0, _ => none
  | f + 1, cs =>
    match skipWs cs with
    | [] => none
    | c :: rest =>
      if c = '\x7b' then parseObjBody f rest
      else if c = '[' then parseArrBody f rest
      else if c = '"' then (parseStrBody rest).map (fun p => (Json.str ⟨p.1⟩, p.2))
      else if c = 't' then
        if rest.take 3 = ['r', 'u', 'e'] then some (.bool true, rest.drop 3) else none
      else if c = 'f' then
        if rest.take 4 = ['a', 'l', 's', 'e'] then some (.bool false, rest.drop 4) else none
      else if c = 'n' then
        if rest.take 3 = ['u', 'l', 'l'] then some (.null, rest.drop 3) else none
      else if c = '-' then
        match rest with
        | d :: _ =>
          if isDigitC d then
            let p := spanDigits rest
            some (.num (-(digitsVal p.1 : Int)), p.2)
          else none
        | [] => none
      else if isDigitC c then
        let p := spanDigits (c :: rest)
        some (.num (digitsVal p.1 : Int), p.2)
      else none

/-- Parser for an object after its opening brace. -/
def parseObjBody : Nat → List Char → Option (Json × List Char)
  | 0, _ => none
  | f + 1, cs =>
    match skipWs cs with
    | [] => none
    | c :: r =>
      if c = '\x7d' then some (.obj [], r)
      else (parseMembers f cs).map (fun p => (Json.obj p.1, p.2))

/-- Parser for a non-empty member list, consuming the closing brace. -/
def parseMembers : Nat → List Char → Option (List (String × Json) × List Char)
  | 0, _ => none
  | f + 1, cs =>
    match skipWs cs with
    | [] => none
    | c :: r =>
      if c = '"' then
        match parseStrBody r with
        | none => none
        | some (key, r1) =>
          match skipWs r1 with
          | [] => none
          | c1 :: r2 =>
            if c1 = ':' then
              match parseVal f r2 with
              | none => none
              | some (v, r3) =>
                match skipWs r3 with
                | [] => none
                | c2 :: r4 =>
                  if c2 = ',' then (parseMembers f r4).map (fun p => ((⟨key⟩, v) :: p.1, p.2))
                  else if c2 = '\x7d' then some ([(⟨key⟩, v)], r4)
                  else none
            else none
      else none

/-- Parser for an array after its opening bracket. -/
def parseArrBody : Nat → List Char → Option (Json × List Char)
  | 0, _ => none
  | f + 1, cs =>
    match skipWs cs with
    | [] => none
    | c :: r =>
      if c = ']' then some (.arr [], r)
      else (parseItems f cs).map (fun p => (Json.arr p.1, p.2))

/-- Parser for a non-empty element list, consuming the closing bracket. -/
def parseItems : Nat → List Char → Option (List Json × List Char)
  | 0, _ => none
  | f + 1, cs =>
    match parseVal f cs with
    | none => none
    | some (v, r1) =>
      match skipWs r1 with
      | [] => none
      | c :: r2 =>
        if c = ',' then (parseItems f r2).map (fun p => (v :: p.1, p.2))
        else if c = ']' then some ([v], r2)
        else none

end

/-- Model of `JSON.parse` (as `Option` in place of a thrown `SyntaxError`).
The fuel `2 * length + 2` dominates the recursion depth of any input. -/
def Json.parse (s : String) : Option Json :=
  match parseVal (2 * s.data.length + 2) s.data with
  | none => none
  | some (v, rest) => if skipWs rest = [] then some v else none

/-! ## AI-service embedding: request, artifact and oracle types -/

/-- Message-carrying JavaScript error value (`error.message` is all the
embedded code inspects). -/
structure JsError where
  message : String
deriving DecidableEq

/-- Arguments of one `generateText` call that the embedded control flow can
depend on.  The sampling temperature (a float constant per call site) is
carried by no branch of the source and is omitted. -/
structure GenCall where
  system : String
  prompt : String
  maxTokens : Nat
deriving DecidableEq

/-- Oracle environment for everything outside the process: the model
provider (`gen`, indexed by a running call counter), `Math.random`
(`randQ`, each draw a rational in `[0,1)` per its contract), the ids minted
by `generateId` (which consumes randomness and the clock), the clock
(`nowIso` for `new Date().toISOString()`), and presence of the
`GOOGLE_GENERATIVE_AI_API_KEY` environment variable. -/
structure Env where
  hasApiKey : Bool
  gen : Nat → GenCall → Except JsError String
  randQ : Nat → ℚ
  freshId : Nat → String
  nowIso : String

/-- Mirror of the `GeneratedTest` interface. -/
structure GeneratedTest where
  type : String
  content : String
  filename : String
  description : String
  coverage : List String
  dependencies : List String
  category : Option String
deriving DecidableEq

/-- Mirror of the `TestGenerationRequest` interface.  String-typed fields
that arrive as `undefined` at runtime are represented by the string
"undefined", which reproduces both the template-literal coercion and the
failed object lookups of the source; genuinely optional fields stay
`Option`.  (`projectStructure` is read by no embedded function.) -/
structure TestGenerationRequest where
  inputType : String
  inputData : String
  testTypes : List String
  language : String
  additionalContext : Option String
  framework : Option String
  testingLibrary : Option String
  aiModel : Option String
deriving DecidableEq

/-- Model of `getAIModel`: throws exactly when the API key is absent; the
returned handle itself carries no information the embedding needs. -/
def getAIModel (env : Env) : Except JsError Unit :=
  if env.hasApiKey then .ok ()
  else .error ⟨"Google AI Studio API key not found. Please set GOOGLE_GENERATIVE_AI_API_KEY in your environment variables."⟩

/-- Quota test applied to caught error messages in `generateTestCases`:
`error.message.includes("quota") || error.message.includes("429")`. -/
def isQuotaError (m : String) : Bool := jsIncludes m "quota" || jsIncludes m "429"

/-! ## Helper functions of the service (pure string logic) -/

/-- Mirror of `getTestingFramework`. -/
def getTestingFramework (language : String) : String :=
  if language = "java" then "JUnit 5 with Mockito"
  else if language = "python" then "pytest with unittest.mock"
  else if language = "javascript" then "Jest with testing-library"
  else "appropriate testing framework"

/-- Mirror of `getApiTestingLibrary`. -/
def getApiTestingLibrary (language : String) : String :=
  if language = "java" then "RestAssured with TestNG"
  else if language = "python" then "requests with pytest"
  else if language = "javascript" then "axios with Jest"
  else "HTTP client library"

/-- Mirror of `getSystemPrompt`. -/
def getSystemPrompt (testType language : String) : String :=
  let basePrompt := "You are an expert test automation engineer. Generate production-ready, comprehensive test code."
  if testType = "bdd" then
    basePrompt ++ " For BDD tests: Use proper Gherkin syntax with Given-When-Then structure. Include multiple scenarios covering happy path, edge cases, and error conditions."
  else if testType = "unit" then
    basePrompt ++ " For Unit tests in " ++ language ++ ": Use " ++ getTestingFramework language ++ " framework. Include proper setup and teardown methods. Test all public methods and edge cases."
  else if testType = "api" then
    basePrompt ++ " For API tests in " ++ language ++ ": Use " ++ getApiTestingLibrary language ++ " for HTTP requests. Test all HTTP methods. Validate response status codes, headers, and body."
  else if testType = "ui" then
    basePrompt ++ " For UI tests in " ++ language ++ ": Use Selenium WebDriver with Page Object Model pattern. Include explicit waits and proper element locators."
  else if testType = "performance" then
    basePrompt ++ " For Performance tests: Create JMeter test plans or " ++ language ++ " performance scripts. Include ramp-up, steady state, and ramp-down phases."
  else basePrompt

/-- Mirror of `getFileExtension`. -/
def getFileExtension (language : String) : String :=
  if language = "java" then "java"
  else if language = "python" then "py"
  else if language = "javascript" then "js"
  else "txt"

/-- Mirror of `getDefaultDependencies`
(`dependencyMap[language]?.[testType] || []`). -/
def getDefaultDependencies (testType language : String) : List String :=
  if language = "java" then
    if testType = "unit" then ["junit-jupiter", "mockito-core", "assertj-core"]
    else if testType = "bdd" then ["cucumber-java", "cucumber-junit", "rest-assured"]
    else if testType = "api" then ["rest-assured", "testng", "hamcrest"]
    else if testType = "ui" then ["selenium-java", "webdrivermanager", "testng"]
    else if testType = "performance" then ["apache-jmeter", "rest-assured", "micrometer-core"]
    else []
  else if language = "python" then
    if testType = "unit" then ["pytest", "unittest.mock", "pytest-mock"]
    else if testType = "bdd" then ["behave", "requests", "pytest-bdd"]
    else if testType = "api" then ["requests", "pytest", "jsonschema"]
    else if testType = "ui" then ["selenium", "pytest", "webdriver-manager"]
    else if testType = "performance" then ["locust", "requests", "pytest"]
    else []
  else if language = "javascript" then
    if testType = "unit" then ["jest", "@testing-library/react", "@testing-library/jest-dom"]
    else if testType = "bdd" then ["cucumber", "axios", "chai"]
    else if testType = "api" then ["axios", "jest", "supertest"]
    else if testType = "ui" then ["selenium-webdriver", "jest", "webdriver-manager"]
    else if testType = "performance" then ["artillery", "axios", "jest"]
    else []
  else []

/-- Splitting on `/\s+/`, as `String.prototype.split` does: runs of
whitespace separate tokens, and a leading or trailing run contributes an
empty token.  The `skipping` flag is true inside a whitespace run. -/
def splitWsAux : Bool → List Char → List Char → List (List Char)
  | _, acc, [] => [acc.reverse]
  | skipping, acc, c :: cs =>
    if jsWs c then
      if skipping then splitWsAux true [] cs
      else acc.reverse :: splitWsAux true [] cs
    else splitWsAux false (c :: acc) cs

/-- Mirror of `extractBaseName`: lower-case, replace `[^a-z0-9\s]` by
spaces, split on whitespace, keep words longer than two characters, first
three joined by "-", with `testType ++ "-case"` when that comes out empty. -/
def extractBaseName (inputData testType : String) : String :=
  let lowered := inputData.data.map Char.toLower
  let replaced := lowered.map fun c =>
    if ('a' ≤ c && c ≤ 'z') || ('0' ≤ c && c ≤ '9') || jsWs c then c else ' '
  let words := ((splitWsAux false [] replaced).filter fun w => w.length > 2).take 3
  let joined := String.intercalate "-" (words.map fun w => (⟨w⟩ : String))
  if joined = "" then testType ++ "-case" else joined

/-- Mirror of `generateFilename`: the `extensions` and `typePrefix` lookup
objects become the corresponding conditional chains, with the same `||`
defaults. -/
def generateFilename (testType language inputData : String) : String :=
  let baseName := extractBaseName inputData testType
  if testType = "bdd" then baseName ++ ".feature"
  else if testType = "performance" then baseName ++ ".jmx"
  else
    let pref :=
      if testType = "bdd" then "feature"
      else if testType = "unit" then "test"
      else if testType = "api" then "api-test"
      else if testType = "ui" then "ui-test"
      else if testType = "performance" then "perf-test"
      else "test"
    let ext :=
      if language = "java" then ".java"
      else if language = "python" then ".py"
      else if language = "javascript" then ".js"
      else ".txt"
    pref ++ "-" ++ baseName ++ ext

/-! ## Mirror of extractJsonFromResponse -/

/-- Model of `text.replace(/```json\s*/g, "").replace(/```\s*/g, "")`. -/
def stripCodeFences (s : String) : String :=
  let d1 := replaceTokWs "```json".data s.data.length false s.data
  ⟨replaceTokWs "```".data d1.length false d1⟩

/-- Brace count contributed by one line:
`(line.match(/\{/g) || []).length - (line.match(/\}/g) || []).length`. -/
def braceDelta (line : String) : Int :=
  (line.data.count '\x7b' : Int) - (line.data.count '\x7d' : Int)

/-- Line loop of `extractJsonFromResponse`: waits for the first line
containing a brace, then collects lines while accumulating the brace count,
stopping after the first collected line at which the count is zero. -/
def jsonLinesLoop : List String → Int → Bool → List String
  | [], _, _ => []
  | line :: restL, braceCount, foundStart =>
    let found := foundStart || line.data.contains '\x7b'
    if found then
      let bc := braceCount + braceDelta line
      if bc = 0 then [line]
      else line :: jsonLinesLoop restL bc true
    else jsonLinesLoop restL braceCount false

/-- Mirror of `extractJsonFromResponse`: strip code fences, cut to the
substring from the first `{` through the last `}` (when both exist in that
order), run the per-line brace scan, and trim. -/
def extractJsonFromResponse (text : String) : String :=
  let cleaned := stripCodeFences text
  let cleaned2 :=
    match firstIdxOf cleaned.data '\x7b', lastIdxOf cleaned.data '\x7d' with
    | some js, some je =>
      if js < je then (⟨(cleaned.data.drop js).take (je + 1 - js)⟩ : String) else cleaned
    | _, _ => cleaned
  let lines := splitNl cleaned2
  trimJs (joinNl (jsonLinesLoop lines 0 false))

/-- Scan behind the claim's description of the brace region: accumulate the
per-line brace count and keep lines up to and including the first line at
which it is zero; `none` when it never returns to zero. -/
def specZeroScan : List String → Int → Option (List String)
  | [], _ => none
  | line :: rest, acc =>
    let acc2 := acc + braceDelta line
    if acc2 = 0 then some [line]
    else (specZeroScan rest acc2).map (line :: ·)

/-- Claim-side description of `extractJsonFromResponse` (C9), built from
the claim's words alone: after stripping code fences, the result starts at
the first `{` of the remaining text and ends at the end of the first line
on which the running brace count, accumulated per line from the first line
containing `{`, returns to zero. -/
def claimExtractJson (text : String) : Option String :=
  let cleaned := stripCodeFences text
  let ls2 := (splitNl cleaned).dropWhile fun l => !(l.data.contains '\x7b')
  match ls2 with
  | [] => none
  | first :: rest =>
    let tail : String := ⟨first.data.dropWhile (· ≠ '\x7b')⟩
    (specZeroScan (tail :: rest) 0).map joinNl

/-- Keep lines up to and including the first line at which the accumulated
brace count is zero, keeping everything when it never returns to zero
(the amended description of the line scan). -/
def takeUntilZero : List String → Int → List String
  | [], _ => []
  | line :: rest, acc =>
    let acc2 := acc + braceDelta line
    if acc2 = 0 then [line]
    else line :: takeUntilZero rest acc2

/-- Amended description of `extractJsonFromResponse` (C9): the scan runs on
the substring from the first `{` through the last `}` of the fence-stripped
text (so text after the last `}` is dropped even on the stopping line), and
the result is trimmed; when the count never returns to zero the whole
region is kept. -/
def amendedExtractJson (text : String) : Option String :=
  let cleaned := stripCodeFences text
  match firstIdxOf cleaned.data '\x7b', lastIdxOf cleaned.data '\x7d' with
  | some js, some je =>
    if js < je then
      let region : String := ⟨(cleaned.data.drop js).take (je + 1 - js)⟩
      some (trimJs (joinNl (takeUntilZero (splitNl region) 0)))
    else none
  | _, _ => none

/-! ## Static fallback templates and analysis objects -/

/-- Template literal transcribed verbatim from generateBasicTestTemplate. -/
def unitJavaTemplate : String :=
  "package com.example.test;\n\nimport org.junit.jupiter.api.Test;\nimport org.junit.jupiter.api.BeforeEach;\nimport org.junit.jupiter.api.DisplayName;\nimport static org.junit.jupiter.api.Assertions.*;\n\n@DisplayName(\"Generated Unit Test\")\npublic class GeneratedTest \x7b\n    \n    @BeforeEach\n    void setUp() \x7b\n        // Setup test data\n    \x7d\n    \n    @Test\n    @DisplayName(\"Should test basic functionality\")\n    void testBasicFunctionality() \x7b\n        // Arrange\n        String input = \"test\";\n        \n        // Act\n        String result = processInput(input);\n        \n        // Assert\n        assertNotNull(result);\n        assertEquals(\"expected\", result);\n    \x7d\n    \n    @Test\n    @DisplayName(\"Should handle null input\")\n    void testNullInput() \x7b\n        // Test null handling\n        assertThrows(IllegalArgumentException.class, () -> \x7b\n            processInput(null);\n        \x7d);\n    \x7d\n    \n    private String processInput(String input) \x7b\n        if (input == null) \x7b\n            throw new IllegalArgumentException(\"Input cannot be null\");\n        \x7d\n        return \"processed: \" + input;\n    \x7d\n\x7d"

/-- Template literal transcribed verbatim from generateBasicTestTemplate. -/
def unitPythonTemplate : String :=
  "import unittest\nfrom unittest.mock import Mock, patch\n\nclass TestGenerated(unittest.TestCase):\n    \n    def setUp(self):\n        \"\"\"Set up test fixtures\"\"\"\n        self.test_data = \"test_input\"\n    \n    def test_basic_functionality(self):\n        \"\"\"Test basic functionality\"\"\"\n        # Arrange\n        input_data = self.test_data\n        \n        # Act\n        result = self.process_input(input_data)\n        \n        # Assert\n        self.assertIsNotNone(result)\n        self.assertEqual(\"processed: test_input\", result)\n    \n    def test_none_input(self):\n        \"\"\"Test handling of None input\"\"\"\n        with self.assertRaises(ValueError):\n            self.process_input(None)\n    \n    def process_input(self, input_data):\n        \"\"\"Process input data\"\"\"\n        if input_data is None:\n            raise ValueError(\"Input cannot be None\")\n        return f\"processed: \x7binput_data\x7d\"\n\nif __name__ == '__main__':\n    unittest.main()"

/-- Template literal transcribed verbatim from generateBasicTestTemplate. -/
def unitJsTemplate : String :=
  "const \x7b describe, it, expect, beforeEach \x7d = require('@jest/globals');\n\ndescribe('Generated Test Suite', () => \x7b\n    let testData;\n    \n    beforeEach(() => \x7b\n        testData = 'test_input';\n    \x7d);\n    \n    it('should test basic functionality', () => \x7b\n        // Arrange\n        const input = testData;\n        \n        // Act\n        const result = processInput(input);\n        \n        // Assert\n        expect(result).toBeDefined();\n        expect(result).toBe('processed: test_input');\n    \x7d);\n    \n    it('should handle null input', () => \x7b\n        // Test null handling\n        expect(() => \x7b\n            processInput(null);\n        \x7d).toThrow('Input cannot be null');\n    \x7d);\n    \n    function processInput(input) \x7b\n        if (input === null || input === undefined) \x7b\n            throw new Error('Input cannot be null');\n        \x7d\n        return `processed: $\x7binput\x7d`;\n    \x7d\n\x7d);"

/-- Template literal transcribed verbatim from generateBasicTestTemplate. -/
def bddFeatureTemplate : String :=
  "Feature: Generated Feature\n  As a user\n  I want to test functionality\n  So that I can ensure quality\n\n  Background:\n    Given the system is initialized\n    And test data is prepared\n\n  @smoke\n  Scenario: Basic functionality test\n    Given I have valid input data\n    When I process the data\n    Then I should get expected results\n    And the system should remain stable\n\n  @regression\n  Scenario Outline: Data validation test\n    Given I have input data \"<input>\"\n    When I validate the data\n    Then the result should be \"<result>\"\n    \n    Examples:\n      | input    | result  |\n      | valid    | success |\n      | invalid  | error   |\n      | empty    | error   |\n\n  @error-handling\n  Scenario: Error handling test\n    Given I have invalid input\n    When I process the data\n    Then I should get an error message\n    And the error should be logged"

/-- Template literal transcribed verbatim from generateBasicTestTemplate. -/
def apiJavaTemplate : String :=
  "package com.example.api.test;\n\nimport io.restassured.RestAssured;\nimport io.restassured.response.Response;\nimport org.testng.annotations.BeforeClass;\nimport org.testng.annotations.Test;\nimport static io.restassured.RestAssured.*;\nimport static org.hamcrest.Matchers.*;\n\npublic class GeneratedAPITest \x7b\n    \n    @BeforeClass\n    public void setup() \x7b\n        RestAssured.baseURI = \"http://localhost:8080\";\n        RestAssured.basePath = \"/api\";\n    \x7d\n    \n    @Test\n    public void testGetEndpoint() \x7b\n        given()\n            .header(\"Content-Type\", \"application/json\")\n        .when()\n            .get(\"/users\")\n        .then()\n            .statusCode(200)\n            .body(\"size()\", greaterThan(0));\n    \x7d\n    \n    @Test\n    public void testPostEndpoint() \x7b\n        String requestBody = \"\x7b\\\"name\\\": \\\"John\\\", \\\"email\\\": \\\"john@example.com\\\"\x7d\";\n        \n        given()\n            .header(\"Content-Type\", \"application/json\")\n            .body(requestBody)\n        .when()\n            .post(\"/users\")\n        .then()\n            .statusCode(201)\n            .body(\"name\", equalTo(\"John\"))\n            .body(\"email\", equalTo(\"john@example.com\"));\n    \x7d\n    \n    @Test\n    public void testErrorHandling() \x7b\n        given()\n            .header(\"Content-Type\", \"application/json\")\n        .when()\n            .get(\"/users/999999\")\n        .then()\n            .statusCode(404)\n            .body(\"error\", notNullValue());\n    \x7d\n\x7d"

/-- Template literal transcribed verbatim from generateBasicTestTemplate. -/
def uiJavaTemplate : String :=
  "package com.example.ui.test;\n\nimport org.openqa.selenium.WebDriver;\nimport org.openqa.selenium.WebElement;\nimport org.openqa.selenium.support.FindBy;\nimport org.openqa.selenium.support.PageFactory;\nimport org.openqa.selenium.support.ui.WebDriverWait;\nimport org.testng.annotations.AfterMethod;\nimport org.testng.annotations.BeforeMethod;\nimport org.testng.annotations.Test;\nimport io.github.bonigarcia.wdm.WebDriverManager;\nimport org.openqa.selenium.chrome.ChromeDriver;\nimport static org.testng.Assert.*;\n\npublic class GeneratedUITest \x7b\n    \n    private WebDriver driver;\n    private WebDriverWait wait;\n    \n    @FindBy(id = \"email\")\n    private WebElement emailField;\n    \n    @FindBy(id = \"password\")\n    private WebElement passwordField;\n    \n    @FindBy(id = \"submit\")\n    private WebElement submitButton;\n    \n    @BeforeMethod\n    public void setup() \x7b\n        WebDriverManager.chromedriver().setup();\n        driver = new ChromeDriver();\n        wait = new WebDriverWait(driver, 10);\n        PageFactory.initElements(driver, this);\n    \x7d\n    \n    @Test\n    public void testLoginForm() \x7b\n        driver.get(\"http://localhost:3000/login\");\n        \n        emailField.sendKeys(\"test@example.com\");\n        passwordField.sendKeys(\"password123\");\n        submitButton.click();\n        \n        // Verify successful login\n        assertTrue(driver.getCurrentUrl().contains(\"dashboard\"));\n    \x7d\n    \n    @Test\n    public void testFormValidation() \x7b\n        driver.get(\"http://localhost:3000/login\");\n        \n        submitButton.click();\n        \n        // Verify validation messages\n        assertTrue(emailField.getAttribute(\"validationMessage\").contains(\"required\"));\n    \x7d\n    \n    @AfterMethod\n    public void tearDown() \x7b\n        if (driver != null) \x7b\n            driver.quit();\n        \x7d\n    \x7d\n\x7d"

/-- Template literal transcribed verbatim from generateBasicTestTemplate. -/
def perfJmxTemplate : String :=
  "<?xml version=\"1.0\" encoding=\"UTF-8\"?>\n<jmeterTestPlan version=\"1.2\">\n  <hashTree>\n    <TestPlan guiclass=\"TestPlanGui\" testclass=\"TestPlan\" testname=\"Generated Performance Test\">\n      <stringProp name=\"TestPlan.comments\">Generated performance test plan</stringProp>\n      <boolProp name=\"TestPlan.functional_mode\">false</boolProp>\n      <boolProp name=\"TestPlan.serialize_threadgroups\">false</boolProp>\n      <elementProp name=\"TestPlan.arguments\" elementType=\"Arguments\" guiclass=\"ArgumentsPanel\">\n        <collectionProp name=\"Arguments.arguments\"/>\n      </elementProp>\n      <stringProp name=\"TestPlan.user_define_classpath\"></stringProp>\n    </TestPlan>\n    <hashTree>\n      <ThreadGroup guiclass=\"ThreadGroupGui\" testclass=\"ThreadGroup\" testname=\"Load Test\">\n        <stringProp name=\"ThreadGroup.on_sample_error\">continue</stringProp>\n        <elementProp name=\"ThreadGroup.main_controller\" elementType=\"LoopController\">\n          <boolProp name=\"LoopController.continue_forever\">false</boolProp>\n          <stringProp name=\"LoopController.loops\">10</stringProp>\n        </elementProp>\n        <stringProp name=\"ThreadGroup.num_threads\">50</stringProp>\n        <stringProp name=\"ThreadGroup.ramp_time\">60</stringProp>\n        <longProp name=\"ThreadGroup.start_time\">1</longProp>\n        <longProp name=\"ThreadGroup.end_time\">1</longProp>\n        <boolProp name=\"ThreadGroup.scheduler\">false</boolProp>\n        <stringProp name=\"ThreadGroup.duration\"></stringProp>\n        <stringProp name=\"ThreadGroup.delay\"></stringProp>\n      </ThreadGroup>\n      <hashTree>\n        <HTTPSamplerProxy guiclass=\"HttpTestSampleGui\" testclass=\"HTTPSamplerProxy\" testname=\"API Request\">\n          <elementProp name=\"HTTPsampler.Arguments\" elementType=\"Arguments\">\n            <collectionProp name=\"Arguments.arguments\"/>\n          </elementProp>\n          <stringProp name=\"HTTPSampler.domain\">localhost</stringProp>\n          <stringProp name=\"HTTPSampler.port\">8080</stringProp>\n          <stringProp name=\"HTTPSampler.protocol\">http</stringProp>\n          <stringProp name=\"HTTPSampler.contentEncoding\"></stringProp>\n          <stringProp name=\"HTTPSampler.path\">/api/users</stringProp>\n          <stringProp name=\"HTTPSampler.method\">GET</stringProp>\n          <boolProp name=\"HTTPSampler.follow_redirects\">true</boolProp>\n          <boolProp name=\"HTTPSampler.auto_redirects\">false</boolProp>\n          <boolProp name=\"HTTPSampler.use_keepalive\">true</boolProp>\n        </HTTPSamplerProxy>\n      </hashTree>\n    </hashTree>\n  </hashTree>\n</jmeterTestPlan>"

/-! ## JavaScript value coercion helpers -/

mutual

/-- Template-literal coercion of a JavaScript value to a string (arrays
print comma-joined as `Array.prototype.toString`; nested nulls inside an
array would print empty in JavaScript, a difference no embedded value
exercises). -/
def jsDisplay : Json → String
  | .null => "null"
  | .bool b => if b then "true" else "false"
  | .num n => ⟨intChars n⟩
  | .str s => s
  | .arr xs => jsDisplayList xs
  | .obj _ => "[object Object]"

/-- Comma rendering of array elements. -/
def jsDisplayList : List Json → String
  | [] => ""
  | [x] => jsDisplay x
  | x :: y :: ys => jsDisplay x ++ "," ++ jsDisplayList (y :: ys)

end

/-- Interpolation of a possibly missing property (`undefined` prints as the
string "undefined"). -/
def displayOpt : Option Json → String
  | some v => jsDisplay v
  | none => "undefined"

/-- Model of `x || dflt` at a string interpolation site. -/
def truthyOrStr (o : Option Json) (dflt : String) : String :=
  match o with
  | some v => if v.truthy then jsDisplay v else dflt
  | none => dflt

/-- Model of `xs?.join(sep) || dflt`: joining a missing or non-array value
yields the default, and a joined empty string is falsy so it does too. -/
def joinOr (o : Option Json) (sep dflt : String) : String :=
  match o with
  | some (.arr xs) =>
    let j := String.intercalate sep (xs.map jsDisplay)
    if j = "" then dflt else j
  | _ => dflt

/-- Model of `s.charAt(0).toUpperCase() + s.slice(1)`. -/
def capitalizeJs (s : String) : String :=
  match s.data with
  | [] => ""
  | c :: cs => ⟨c.toUpper :: cs⟩

/-- Model of `s.toLowerCase()`. -/
def lowerJs (s : String) : String := ⟨s.data.map Char.toLower⟩

/-- First-occurrence `String.prototype.replace` with a string pattern (the
embedded call sites never pass an empty pattern, where JavaScript would
prepend). -/
def replaceFirstL (pat repl : List Char) : List Char → List Char
  | [] => []
  | c :: cs =>
    match pat with
    | [] => c :: cs
    | _ :: _ =>
      if pat.isPrefixOf (c :: cs) then repl ++ (c :: cs).drop pat.length
      else c :: replaceFirstL pat repl cs

/-- String form of `replaceFirstL`. -/
def replaceFirstS (s pat repl : String) : String := ⟨replaceFirstL pat.data repl.data s.data⟩

/-! ## Basic template fallback -/

/-- Mirror of `generateBasicTestTemplate`.  The `templates` object has
entries for exactly the five test kinds, so any other kind returns `null`;
for the "unit"/"api"/"ui" rows the content is
`testTemplate[languageKey] || testTemplate.java || ""` (the api and ui rows
carry only a java entry), and `if (!content) return null` closes the
function. -/
def generateBasicTestTemplate (req : TestGenerationRequest) (testType : String) : Option GeneratedTest :=
  if testType = "unit" || testType = "bdd" || testType = "api" || testType = "ui" || testType = "performance" then
    let content :=
      if testType = "bdd" then bddFeatureTemplate
      else if testType = "performance" then perfJmxTemplate
      else if testType = "unit" then
        if req.language = "java" then unitJavaTemplate
        else if req.language = "python" then unitPythonTemplate
        else if req.language = "javascript" then unitJsTemplate
        else unitJavaTemplate
      else if testType = "api" then apiJavaTemplate
      else uiJavaTemplate
    let filename :=
      if testType = "bdd" then "generated-test.feature"
      else if testType = "performance" then "performance-test.jmx"
      else generateFilename testType req.language req.inputData
    if content = "" then none
    else
      some { type := testType, content := content, filename := filename,
             description := "Template-based " ++ testType ++ " test for " ++ req.inputType,
             coverage := ["Basic " ++ testType ++ " testing", "Template-generated", "Fallback implementation"],
             dependencies := getDefaultDependencies testType req.language,
             category := some "main" }
  else none

/-- Mirror of `generateTestFromTemplate`
(`template ? [template] : []`; the analysis argument is unused there). -/
def generateTestFromTemplate (req : TestGenerationRequest) (testType : String) (_analysis : Json) : List GeneratedTest :=
  (generateBasicTestTemplate req testType).toList

/-- Per-method block of the java class-specific template. -/
def methodBlockJava (classLower m : String) : String :=
  "    @Test\n    @DisplayName(\"Should test " ++ m ++ " functionality\")\n    void test" ++ capitalizeJs m ++ "() \x7b\n        // Arrange\n        // Set up test data and mock behavior\n        \n        // Act\n        // Call the method under test\n        \n        // Assert\n        // Verify the results and mock interactions\n        assertNotNull(" ++ classLower ++ ");\n    \x7d\n    \n    @Test\n    @DisplayName(\"Should handle " ++ m ++ " edge cases\")\n    void test" ++ capitalizeJs m ++ "EdgeCases() \x7b\n        // Test edge cases and error scenarios\n        assertThrows(Exception.class, () -> \x7b\n            // Test exception scenarios\n        \x7d);\n    \x7d"

/-- Per-method block of the python class-specific template. -/
def methodBlockPython (classLower m : String) : String :=
  "    def test_" ++ m ++ "(self):\n        \"\"\"Test " ++ m ++ " functionality.\"\"\"\n        # Arrange\n        expected_result = \"test_result\"\n        \n        # Act\n        result = self." ++ classLower ++ "." ++ m ++ "()\n        \n        # Assert\n        self.assertIsNotNone(result)\n        \n    def test_" ++ m ++ "_edge_cases(self):\n        \"\"\"Test " ++ m ++ " edge cases and error scenarios.\"\"\"\n        with self.assertRaises(Exception):\n            self." ++ classLower ++ "." ++ m ++ "(None)"

/-- Per-method block of the javascript class-specific template. -/
def methodBlockJs (classLower m : String) : String :=
  "    describe('" ++ m ++ "', () => \x7b\n        it('should test " ++ m ++ " functionality', () => \x7b\n            // Arrange\n            const expectedResult = 'test_result';\n            \n            // Act\n            const result = " ++ classLower ++ "." ++ m ++ "();\n            \n            // Assert\n            expect(result).toBeDefined();\n        \x7d);\n        \n        it('should handle " ++ m ++ " edge cases', () => \x7b\n            // Test edge cases and error scenarios\n            expect(() => \x7b\n                " ++ classLower ++ "." ++ m ++ "(null);\n            \x7d).toThrow();\n        \x7d);\n    \x7d);"

/-- Mirror of `generateClassSpecificTemplate`.  Every language branch
assigns a non-empty content, so despite the nullable TypeScript signature
the function always returns a test. -/
def generateClassSpecificTemplate (req : TestGenerationRequest) (testableClass : Json) : GeneratedTest :=
  let className := truthyOrStr (testableClass.getKey "className") "TestClass"
  let methods : List Json :=
    match testableClass.getKey "methods" with
    | some v => if v.truthy then (match v with | .arr xs => xs | _ => []) else [Json.str "testMethod"]
    | none => [Json.str "testMethod"]
  let classLower := lowerJs className
  let blocks (f : String → String → String) : String :=
    String.intercalate "\n\n" (methods.map fun m => f classLower (jsDisplay m))
  let content :=
    if req.language = "java" then
      "package " ++ truthyOrStr (testableClass.getKey "package") "com.example" ++ ".test;\n\nimport org.junit.jupiter.api.Test;\nimport org.junit.jupiter.api.BeforeEach;\nimport org.junit.jupiter.api.DisplayName;\nimport org.junit.jupiter.api.extension.ExtendWith;\nimport org.mockito.Mock;\nimport org.mockito.InjectMocks;\nimport org.mockito.junit.jupiter.MockitoExtension;\nimport static org.junit.jupiter.api.Assertions.*;\nimport static org.mockito.Mockito.*;\n\n@ExtendWith(MockitoExtension.class)\n@DisplayName(\"" ++ className ++ " Unit Tests\")\npublic class " ++ className ++ "Test \x7b\n    \n    @Mock\n    private Object mockDependency;\n    \n    @InjectMocks\n    private " ++ className ++ " " ++ classLower ++ ";\n    \n    @BeforeEach\n    void setUp() \x7b\n        // Setup test data and mocks\n    \x7d\n    \n" ++ blocks methodBlockJava ++ "\n\x7d"
    else if req.language = "python" then
      "import unittest\nfrom unittest.mock import Mock, patch, MagicMock\nimport pytest\n\nclass Test" ++ className ++ "(unittest.TestCase):\n    \n    def setUp(self):\n        \"\"\"Set up test fixtures before each test method.\"\"\"\n        self.mock_dependency = Mock()\n        self." ++ classLower ++ " = " ++ className ++ "(self.mock_dependency)\n    \n" ++ blocks methodBlockPython ++ "\n\nif __name__ == '__main__':\n    unittest.main()"
    else
      "const \x7b describe, it, expect, beforeEach, jest \x7d = require('@jest/globals');\n\ndescribe('" ++ className ++ "', () => \x7b\n    let " ++ classLower ++ ";\n    let mockDependency;\n    \n    beforeEach(() => \x7b\n        mockDependency = jest.fn();\n        " ++ classLower ++ " = new " ++ className ++ "(mockDependency);\n    \x7d);\n    \n" ++ blocks methodBlockJs ++ "\n\x7d);"
  { type := "unit", content := content,
    filename := className ++ "Test." ++ getFileExtension req.language,
    description := "Template-based unit tests for " ++ className,
    coverage := [className ++ " methods", "Basic functionality", "Error handling"],
    dependencies := getDefaultDependencies "unit" req.language,
    category := some "main" }

/-- Mirror of `generateTestSuiteRunner` (always returns a runner despite
the nullable signature; the analysis argument is unused). -/
def generateTestSuiteRunner (req : TestGenerationRequest) (tests : List GeneratedTest) (_analysis : Json) : GeneratedTest :=
  let content :=
    if req.language = "java" then
      "package com.example.test;\n\nimport org.junit.platform.suite.api.SelectClasses;\nimport org.junit.platform.suite.api.Suite;\nimport org.junit.platform.suite.api.SuiteDisplayName;\n\n@Suite\n@SuiteDisplayName(\"Complete Unit Test Suite\")\n@SelectClasses(\x7b\n" ++ String.intercalate ",\n" (tests.map fun t => "    " ++ replaceFirstS t.filename ".java" "" ++ ".class") ++ "\n\x7d)\npublic class UnitTestSuite \x7b\n    // This class runs all unit tests in the project\n    // Execute with: mvn test -Dtest=UnitTestSuite\n\x7d"
    else if req.language = "python" then
      "\"\"\"\nComplete Unit Test Suite\nRun with: python -m pytest test_suite.py -v\n\"\"\"\n\nimport unittest\nimport sys\nimport os\n\n# Import all test classes\n" ++ String.intercalate "\n" (tests.map fun t => "from " ++ replaceFirstS t.filename ".py" "" ++ " import " ++ replaceFirstS (replaceFirstS t.filename ".py" "") "test_" "Test") ++ "\n\ndef create_test_suite():\n    \"\"\"Create a test suite containing all unit tests.\"\"\"\n    suite = unittest.TestSuite()\n    \n    # Add all test classes\n" ++ String.intercalate "\n" (tests.map fun t => "    suite.addTest(unittest.makeSuite(" ++ replaceFirstS (replaceFirstS t.filename ".py" "") "test_" "Test" ++ "))") ++ "\n    \n    return suite\n\nif __name__ == '__main__':\n    runner = unittest.TextTestRunner(verbosity=2)\n    result = runner.run(create_test_suite())\n    \n    # Exit with error code if tests failed\n    sys.exit(0 if result.wasSuccessful() else 1)"
    else
      "/**\n * Complete Unit Test Suite\n * Run with: npm test\n */\n\n// Import all test files\n" ++ String.intercalate "\n" (tests.map fun t => "require('./" ++ t.filename ++ "');") ++ "\n\n// Jest will automatically discover and run all tests\n// Configuration in package.json:\n/*\n\x7b\n  \"scripts\": \x7b\n    \"test\": \"jest\",\n    \"test:coverage\": \"jest --coverage\",\n    \"test:watch\": \"jest --watch\"\n  \x7d,\n  \"jest\": \x7b\n    \"testEnvironment\": \"node\",\n    \"collectCoverageFrom\": [\n      \"src/**/*.\x7bjs,jsx\x7d\",\n      \"!src/index.js\"\n    ]\n  \x7d\n\x7d\n*/"
  { type := "unit", content := content,
    filename := "TestSuite." ++ getFileExtension req.language,
    description := "Complete unit test suite runner",
    coverage := ["All project classes", "Test execution", "Coverage reporting"],
    dependencies := getDefaultDependencies "unit" req.language ++ ["test-runner"],
    category := some "runner" }

/-! ## Fallback analysis objects -/

/-- Mirror of `getFallbackAnalysis`. -/
def getFallbackAnalysis (_req : TestGenerationRequest) : Json :=
  Json.obj [
    ("complexity", .str "medium"),
    ("estimatedExecutionTime", .num 30),
    ("riskAreas", .arr [.str "Data validation", .str "Error handling"]),
    ("recommendations", .arr [.str "Add edge case testing", .str "Include negative scenarios"]),
    ("testableComponents", .arr [.str "main functionality", .str "error handling", .str "data validation"])]

/-- Mirror of `inferProjectStructure`. -/
def inferProjectStructure (_repoUrl : String) : Json :=
  Json.obj [
    ("structure", .obj [
      ("projectType", .str "maven"),
      ("mainPackages", .arr [.str "com.example.service", .str "com.example.controller"]),
      ("testPackages", .arr [.str "com.example.service.test"]),
      ("configFiles", .arr [.str "pom.xml"]),
      ("sourceDirectories", .arr [.str "src/main/java", .str "src/test/java"])]),
    ("dependencies", .arr [.str "spring-boot-starter", .str "junit-jupiter", .str "mockito-core"]),
    ("frameworks", .arr [.str "Spring Boot", .str "JPA"]),
    ("testableClasses", .arr [.obj [
      ("className", .str "UserService"),
      ("package", .str "com.example.service"),
      ("methods", .arr [.str "createUser", .str "findUser", .str "updateUser", .str "deleteUser"]),
      ("dependencies", .arr [.str "UserRepository"])]]),
    ("apiEndpoints", .arr [.obj [
      ("path", .str "/api/users"),
      ("method", .str "POST"),
      ("controller", .str "UserController")]]),
    ("complexity", .str "medium")]

/-- Mirror of `inferPageStructure`. -/
def inferPageStructure (_webUrl : String) : Json :=
  Json.obj [
    ("pageType", .str "login"),
    ("elements", .arr [
      .obj [("type", .str "input"), ("id", .str "email"), ("name", .str "email"),
            ("selector", .str "#email"), ("label", .str "Email Address"),
            ("required", .bool true), ("validation", .str "email format")],
      .obj [("type", .str "input"), ("id", .str "password"), ("name", .str "password"),
            ("selector", .str "#password"), ("label", .str "Password"),
            ("required", .bool true), ("validation", .str "minimum length")],
      .obj [("type", .str "button"), ("id", .str "submit"), ("selector", .str "#submit-btn"),
            ("text", .str "Login"), ("action", .str "submit form")]]),
    ("workflows", .arr [.obj [
      ("name", .str "User Login"),
      ("steps", .arr [.str "Navigate to login page", .str "Enter email", .str "Enter password",
                      .str "Click login button", .str "Verify successful login"])]]),
    ("validations", .arr [.str "Email field validation", .str "Password field validation",
                          .str "Error message display", .str "Successful login redirect"])]

/-! ## Uploaded-file analysis helpers

The element and dependency extractors below follow the structure of their
JavaScript originals (token scans standing in for the regular expressions,
with the same accumulation, dedup and slicing); the simplifications they
make are noted on each and none of their outputs is inspected by a claim —
they only seed prompt text and analysis metadata. -/

/-- Mirror of `getLanguageFromExtension`. -/
def getLanguageFromExtension (filename : String) : String :=
  if filename.endsWith ".java" then "java"
  else if filename.endsWith ".py" then "python"
  else if filename.endsWith ".js" || filename.endsWith ".jsx" then "javascript"
  else if filename.endsWith ".ts" || filename.endsWith ".tsx" then "typescript"
  else "unknown"

/-- Word-character test of the `\w` regular-expression class. -/
def isWordChar (c : Char) : Bool :=
  ('a' ≤ c && c ≤ 'z') || ('A' ≤ c && c ≤ 'Z') || ('0' ≤ c && c ≤ '9') || c = '_'

/-- Leading `\w+` run. -/
def takeWord (l : List Char) : List Char := l.takeWhile isWordChar

/-- Matches keywords separated by `\s+` and then captures a `\w+` name, for
patterns such as `public\s+class\s+(\w+)`. -/
def tryChainWord : List (List Char) → List Char → Option String
  | [], l =>
    let w := takeWord l
    if w.isEmpty then none else some ⟨w⟩
  | kw :: kws, l =>
    if kw.isPrefixOf l then
      let after := l.drop kw.length
      match after with
      | a :: _ => if jsWs a then tryChainWord kws (dropWsRun after) else none
      | [] => none
    else none

/-- Scans for the first position where the keyword chain matches. -/
def scanChainWord (kws : List (List Char)) : List Char → Option String
  | [] => none
  | c :: cs =>
    match tryChainWord kws (c :: cs) with
    | some w => some w
    | none => scanChainWord kws cs

/-- Mirror of `extractJavaElements`, simplified: the class name found by
`public\s+class\s+(\w+)` (or "UnknownClass") is kept; the public-method
name list of the original is not modelled. -/
def extractJavaElements (content : String) : List String :=
  [(scanChainWord ["public".data, "class".data] content.data).getD "UnknownClass"]

/-- Mirror of `extractPythonElements`, simplified in the same way
(`class\s+(\w+)`; the `def` name list is not modelled). -/
def extractPythonElements (content : String) : List String :=
  [(scanChainWord ["class".data] content.data).getD "UnknownClass"]

/-- Mirror of `extractJavaScriptElements`, simplified in the same way
(`class\s+(\w+)`; the function and method name lists are not modelled). -/
def extractJavaScriptElements (content : String) : List String :=
  [(scanChainWord ["class".data] content.data).getD "UnknownClass"]

/-- Mirror of `parseUploadedFiles`; the per-file `analysis` record of the
original is flattened into the fields after `content`. -/
structure FileRec where
  name : String
  content : String
  language : String
  linesOfCode : Nat
  testableElements : List String
  complexity : String
deriving DecidableEq

/-- Mirror of `parseUploadedFiles`: blocks split on "// File:", first line
the file name, the rest the content. -/
def parseUploadedFiles (inputData : String) : List FileRec :=
  ((inputData.splitOn "// File:").drop 1).map fun block =>
    let lines := (trimJs block).splitOn "\n"
    let fileName := trimJs (lines.headD "")
    let content := String.intercalate "\n" (lines.drop 1)
    { name := fileName, content := content,
      language := getLanguageFromExtension fileName,
      linesOfCode := ((content.splitOn "\n").filter fun l => !(trimJs l = "")).length,
      testableElements :=
        if fileName.endsWith ".java" then extractJavaElements content
        else if fileName.endsWith ".py" then extractPythonElements content
        else extractJavaScriptElements content,
      complexity := "medium" }

/-- Insertion-ordered set add, modelling a JavaScript `Set`. -/
def addUnique (l : List String) (x : String) : List String :=
  if x ∈ l then l else l ++ [x]

/-- Scan for java `import\s+[^;]+;` matches, keeping the captured text up
to its first dot, as `extractDependencies` computes it.  (The degenerate
backtracking case of a whitespace-only import body, and `replace` failing
on a non-space separator, are not modelled.) -/
def scanJavaImports : Nat → List Char → List String
  | 0, _ => []
  | fuel + 1, l =>
    match l with
    | [] => []
    | c :: cs =>
      if ("import".data).isPrefixOf (c :: cs) then
        let after := (c :: cs).drop 6
        match after with
        | a :: _ =>
          if jsWs a then
            let body := dropWsRun after
            let seg := body.takeWhile (· ≠ ';')
            if !seg.isEmpty && !(body.drop seg.length).isEmpty then
              (⟨seg.takeWhile (· ≠ '.')⟩ : String) :: scanJavaImports fuel (body.drop (seg.length + 1))
            else scanJavaImports fuel cs
          else scanJavaImports fuel cs
        | [] => []
      else scanJavaImports fuel cs

/-- Scan for python `(?:from|import)\s+(\w+)` matches. -/
def scanPyImports : Nat → List Char → List String
  | 0, _ => []
  | fuel + 1, l =>
    match l with
    | [] => []
    | c :: cs =>
      match tryChainWord ["from".data] (c :: cs) with
      | some w => w :: scanPyImports fuel cs
      | none =>
        match tryChainWord ["import".data] (c :: cs) with
        | some w => w :: scanPyImports fuel cs
        | none => scanPyImports fuel cs

/-- First quoted `['"]([^'"]+)['"]` capture at or after the given
position. -/
def firstQuoted : Nat → List Char → Option String
  | 0, _ => none
  | fuel + 1, l =>
    match l with
    | [] => none
    | c :: cs =>
      if c = '"' || c = '\x27' then
        let seg := cs.takeWhile fun d => !(d = '"' || d = '\x27')
        match cs.drop seg.length with
        | _ :: _ => if seg.isEmpty then firstQuoted fuel cs else some ⟨seg⟩
        | [] => none
      else firstQuoted fuel cs

/-- Scan for javascript module specifiers, modelling the
`import ... from '<m>'` / `require('<m>')` alternation as a scan for
`from\s+<quoted>` and `require(<quoted>)`. -/
def scanJsImports : Nat → List Char → List String
  | 0, _ => []
  | fuel + 1, l =>
    match l with
    | [] => []
    | c :: cs =>
      let hit : Option String :=
        match tryChainWord ["from".data] (c :: cs) with
        | some _ =>
          let after := dropWsRun ((c :: cs).drop 4)
          firstQuoted (after.length + 1) (after.take 200)
        | none =>
          if ("require(".data).isPrefixOf (c :: cs) then
            let after := (c :: cs).drop 8
            firstQuoted (after.length + 1) (after.take 200)
          else none
      match hit with
      | some m => m :: scanJsImports fuel cs
      | none => scanJsImports fuel cs

/-- Mirror of `extractDependencies`: per-file import scans, the java
`java.`-prefix filter (vacuous in the original, since the kept text
precedes any dot), javascript relative-path filter and `/`-split, all
deduplicated in insertion order and capped at 20. -/
def extractDependencies (files : List FileRec) : List String :=
  (files.foldl (fun acc f =>
    if f.name.endsWith ".java" then
      (scanJavaImports f.content.data.length f.content.data).foldl
        (fun a dep => if !dep.startsWith "java." then addUnique a dep else a) acc
    else if f.name.endsWith ".py" then
      (scanPyImports f.content.data.length f.content.data).foldl addUnique acc
    else if f.name.endsWith ".js" || f.name.endsWith ".ts" || f.name.endsWith ".jsx" || f.name.endsWith ".tsx" then
      (scanJsImports f.content.data.length f.content.data).foldl
        (fun a m => if !m.startsWith "." then addUnique a (⟨m.data.takeWhile (· ≠ '/')⟩ : String) else a) acc
    else acc) []).take 20

/-- Mirror of `detectFrameworks` (pure `includes` and file-name checks, in
source order, `Set` semantics). -/
def detectFrameworks (files : List FileRec) : List String :=
  files.foldl (fun acc f =>
    let content := f.content
    let fileName := lowerJs f.name
    let acc := if jsIncludes content "@SpringBootApplication" || jsIncludes content "org.springframework" then addUnique acc "Spring Boot" else acc
    let acc := if jsIncludes content "@Entity" || jsIncludes content "javax.persistence" then addUnique acc "JPA/Hibernate" else acc
    let acc := if jsIncludes content "@RestController" || jsIncludes content "@RequestMapping" then addUnique acc "Spring MVC" else acc
    let acc := if jsIncludes content "from django" || jsIncludes content "import django" then addUnique acc "Django" else acc
    let acc := if jsIncludes content "from flask" || jsIncludes content "import flask" then addUnique acc "Flask" else acc
    let acc := if jsIncludes content "from fastapi" || jsIncludes content "import fastapi" then addUnique acc "FastAPI" else acc
    let acc := if jsIncludes content "import React" || jsIncludes content "from \"react\"" then addUnique acc "React" else acc
    let acc := if jsIncludes content "import Vue" || jsIncludes content "from \"vue\"" then addUnique acc "Vue.js" else acc
    let acc := if jsIncludes content "import express" || jsIncludes content "from \"express\"" then addUnique acc "Express.js" else acc
    let acc := if fileName = "pom.xml" then addUnique acc "Maven" else acc
    let acc := if fileName = "build.gradle" then addUnique acc "Gradle" else acc
    let acc := if fileName = "package.json" then addUnique acc "npm/Node.js" else acc
    acc) []

/-- Scan for spring `@(Request|Get|Post|Put|Delete)Mapping(...)` regions,
returning each region's text up to the closing parenthesis. -/
def scanMappings : Nat → List Char → List (List Char)
  | 0, _ => []
  | fuel + 1, l =>
    match l with
    | [] => []
    | c :: cs =>
      let names := ["@RequestMapping(", "@GetMapping(", "@PostMapping(", "@PutMapping(", "@DeleteMapping("]
      if names.any fun n => (n.data).isPrefixOf (c :: cs) then
        let seg := (c :: cs).takeWhile (· ≠ ')')
        match (c :: cs).drop seg.length with
        | _ :: _ => seg :: scanMappings fuel cs
        | [] => []
      else scanMappings fuel cs

/-- Scan for express `(app|router).(get|post|put|delete)('<path>'`
routes, returning (method, path) pairs. -/
def scanExpressRoutes : Nat → List Char → List (String × String)
  | 0, _ => []
  | fuel + 1, l =>
    match l with
    | [] => []
    | c :: cs =>
      let heads := [("app.get(", "GET"), ("app.post(", "POST"), ("app.put(", "PUT"), ("app.delete(", "DELETE"),
                    ("router.get(", "GET"), ("router.post(", "POST"), ("router.put(", "PUT"), ("router.delete(", "DELETE")]
      match heads.find? fun h => (h.1.data).isPrefixOf (c :: cs) with
      | some h =>
        let after := (c :: cs).drop h.1.length
        match firstQuoted (after.length + 1) (after.take 200) with
        | some p => (h.2, p) :: scanExpressRoutes fuel cs
        | none => scanExpressRoutes fuel cs
      | none => scanExpressRoutes fuel cs

/-- Mirror of `extractApiEndpoints` (spring mapping regions and express
routes become `{path, method, file}` objects, capped at 20). -/
def extractApiEndpoints (files : List FileRec) : List Json :=
  (files.foldl (fun acc f =>
    let content := f.content
    let acc :=
      if jsIncludes content "@RequestMapping" || jsIncludes content "@GetMapping" then
        acc ++ ((scanMappings content.data.length content.data).filterMap fun mp =>
          (firstQuoted (mp.length + 1) mp).map fun path =>
            let mps : String := ⟨mp⟩
            Json.obj [("path", .str path),
                      ("method", .str (if jsIncludes mps "Post" then "POST"
                        else if jsIncludes mps "Put" then "PUT"
                        else if jsIncludes mps "Delete" then "DELETE" else "GET")),
                      ("file", .str f.name)])
      else acc
    let acc :=
      if jsIncludes content "app.get" || jsIncludes content "router." then
        acc ++ ((scanExpressRoutes content.data.length content.data).map fun r =>
          Json.obj [("path", .str r.2), ("method", .str r.1), ("file", .str f.name)])
      else acc
    acc) []).take 20

/-- Model of `file.name.replace(/\.[^.]+$/, "")`: drop a final dot-started
extension when one exists. -/
def stripLastExtension (s : String) : String :=
  let r := s.data.reverse
  let seg := r.takeWhile (· ≠ '.')
  if seg.length < r.length && !seg.isEmpty then ⟨(r.drop (seg.length + 1)).reverse⟩ else s

/-- Mirror of `generateFallbackProjectAnalysis`. -/
def generateFallbackProjectAnalysis (files : List FileRec) : Json :=
  let counts : List (String × Nat) := files.foldl (fun acc f =>
    match acc.find? fun p => p.1 = f.language with
    | some _ => acc.map fun p => if p.1 = f.language then (p.1, p.2 + 1) else p
    | none => acc ++ [(f.language, 1)]) []
  let mainLanguage :=
    match counts.foldl (fun best p =>
      match best with
      | none => some p
      | some b => if p.2 > b.2 then some p else best) none with
    | some p => p.1
    | none => "java"
  Json.obj [
    ("structure", .obj [
      ("projectType", .str (if mainLanguage = "java" then "maven" else if mainLanguage = "python" then "pip" else "npm")),
      ("mainLanguage", .str mainLanguage),
      ("totalFiles", .num (files.length : Int))]),
    ("dependencies", .arr [.str "junit", .str "mockito", .str "assertj"]),
    ("frameworks", .arr [.str (if mainLanguage = "java" then "Spring Boot" else if mainLanguage = "python" then "Django" else "Express.js")]),
    ("testableClasses", .arr ((files.flatMap fun f => f.testableElements.map fun el =>
      Json.obj [("className", .str el),
                ("package", .str (stripLastExtension f.name)),
                ("methods", .arr [.str "testMethod"]),
                ("complexity", .str f.complexity)]).take 20)),
    ("apiEndpoints", .arr []),
    ("complexity", .str (if files.length > 20 then "high" else if files.length > 10 then "medium" else "low"))]

/-! ## Analysis step -/

/-- Arguments of the `generateText` call made by `analyzeInput`. -/
def analyzeInputCall (req : TestGenerationRequest) : GenCall :=
  { system := "You are a test analysis expert. Provide concise analysis. Return ONLY valid JSON without markdown formatting.",
    prompt := "Analyze this " ++ req.inputType ++ ": " ++ substrTake req.inputData 500 ++ "...\n  \n  Provide brief analysis in JSON format:\n  \x7b\n    \"complexity\": \"low|medium|high\",\n    \"testableComponents\": [\"component1\", \"component2\"],\n    \"riskAreas\": [\"area1\", \"area2\"]\n  \x7d",
    maxTokens := 500 }

/-- Mirror of `analyzeInput`: one model call, JSON extraction and parse,
with `getFallbackAnalysis` on any failure (its `try/catch` swallows both a
thrown model error and a parse error). -/
def analyzeInput (env : Env) (req : TestGenerationRequest) (k : Nat) : Json × Nat :=
  match env.gen k (analyzeInputCall req) with
  | .error _ => (getFallbackAnalysis req, k + 1)
  | .ok text =>
    match Json.parse (extractJsonFromResponse text) with
    | some j => (j, k + 1)
    | none => (getFallbackAnalysis req, k + 1)

/-- Mirror of `analyzeGitRepository` (fallback `inferProjectStructure`). -/
def analyzeGitRepository (env : Env) (repoUrl : String) (k : Nat) : Json × Nat :=
  let call : GenCall :=
    { system := "You are a software architect. Provide concise project analysis. Return ONLY valid JSON without markdown formatting.",
      prompt := "Analyze this Git repository URL: " ++ repoUrl ++ "\n\nProvide analysis in JSON format:\n\x7b\n  \"structure\": \x7b\"projectType\": \"maven\", \"mainPackages\": [\"com.example\"]\x7d,\n  \"dependencies\": [\"spring-boot\", \"junit\"],\n  \"frameworks\": [\"Spring Boot\"],\n  \"testableClasses\": [\x7b\"className\": \"UserService\", \"package\": \"com.example\", \"methods\": [\"createUser\"]\x7d],\n  \"apiEndpoints\": [\x7b\"path\": \"/api/users\", \"method\": \"POST\"\x7d],\n  \"complexity\": \"medium\"\n\x7d",
      maxTokens := 800 }
  match env.gen k call with
  | .error _ => (inferProjectStructure repoUrl, k + 1)
  | .ok text =>
    match Json.parse (extractJsonFromResponse text) with
    | some j => (j, k + 1)
    | none => (inferProjectStructure repoUrl, k + 1)

/-- Mirror of `analyzePostmanCollection`: the first kilobyte is parsed as
JSON (or wrapped as `{raw: ...}`), embedded in the prompt, and the fallback
is `{endpoints: [], workflows: []}`. -/
def analyzePostmanCollection (env : Env) (collectionData : String) (k : Nat) : Json × Nat :=
  let parsedCollection :=
    match Json.parse (substrTake collectionData 1000) with
    | some j => j
    | none => Json.obj [("raw", .str (substrTake collectionData 1000))]
  let call : GenCall :=
    { system := "You are an API testing expert. Provide concise analysis. Return ONLY valid JSON without markdown formatting.",
      prompt := "Analyze this Postman collection: " ++ Json.stringify parsedCollection ++ "\n\nProvide analysis in JSON format:\n\x7b\n  \"endpoints\": [\x7b\"name\": \"Create User\", \"method\": \"POST\", \"url\": \"/api/users\"\x7d],\n  \"workflows\": [\x7b\"name\": \"User CRUD\", \"steps\": [\"Create\", \"Read\"]\x7d]\n\x7d",
      maxTokens := 600 }
  match env.gen k call with
  | .error _ => (Json.obj [("endpoints", .arr []), ("workflows", .arr [])], k + 1)
  | .ok text =>
    match Json.parse (extractJsonFromResponse text) with
    | some j => (j, k + 1)
    | none => (Json.obj [("endpoints", .arr []), ("workflows", .arr [])], k + 1)

/-- Mirror of `analyzeWebPage` (fallback `inferPageStructure`). -/
def analyzeWebPage (env : Env) (webUrl : String) (k : Nat) : Json × Nat :=
  let call : GenCall :=
    { system := "You are a UI testing expert. Provide concise analysis. Return ONLY valid JSON without markdown formatting.",
      prompt := "Analyze this web page URL: " ++ webUrl ++ "\n\nProvide analysis in JSON format:\n\x7b\n  \"pageType\": \"login\",\n  \"elements\": [\x7b\"type\": \"input\", \"id\": \"email\", \"selector\": \"#email\"\x7d],\n  \"workflows\": [\x7b\"name\": \"Login\", \"steps\": [\"Enter email\", \"Submit\"]\x7d]\n\x7d",
      maxTokens := 500 }
  match env.gen k call with
  | .error _ => (inferPageStructure webUrl, k + 1)
  | .ok text =>
    match Json.parse (extractJsonFromResponse text) with
    | some j => (j, k + 1)
    | none => (inferPageStructure webUrl, k + 1)

/-- Mirror of `analyzeUploadedFiles`: a summary of the first ten files is
embedded in the prompt (the original pretty-prints it with
`JSON.stringify(fileSummary, null, 2)`; the embedding prints compactly,
a difference confined to the oracle's prompt argument), and a successful
parse is merged with the locally computed dependency, framework and
endpoint lists; any failure falls back to
`generateFallbackProjectAnalysis`. -/
def analyzeUploadedFiles (env : Env) (files : List FileRec) (k : Nat) : Json × Nat :=
  let fileSummary := Json.arr ((files.take 10).map fun f =>
    Json.obj [("name", .str f.name), ("type", .str f.language),
              ("elements", .arr ((f.testableElements.take 5).map Json.str)),
              ("complexity", .str f.complexity),
              ("linesOfCode", .num (f.linesOfCode : Int))])
  let call : GenCall :=
    { system := "You are an expert software architect specializing in test strategy for large codebases. Return ONLY valid JSON without markdown formatting.",
      prompt := "Analyze this uploaded project with " ++ (⟨intChars (files.length : Int)⟩ : String) ++ " files:\n\nFiles Summary: " ++ Json.stringify fileSummary ++ "\n\nProvide comprehensive analysis in JSON format:\n\x7b\n  \"structure\": \x7b\n    \"projectType\": \"maven|gradle|npm|django|rails\",\n    \"mainLanguage\": \"java|python|javascript\",\n    \"architecture\": \"mvc|microservices|monolith\"\n  \x7d,\n  \"testableClasses\": [\n    \x7b\n      \"className\": \"UserService\",\n      \"package\": \"com.example.service\", \n      \"methods\": [\"createUser\", \"findUser\"],\n      \"complexity\": \"medium\",\n      \"priority\": \"high\"\n    \x7d\n  ],\n  \"testingStrategy\": \x7b\n    \"unitTests\": 15,\n    \"integrationTests\": 5,\n    \"e2eTests\": 3\n  \x7d,\n  \"complexity\": \"medium\"\n\x7d",
      maxTokens := 1000 }
  match env.gen k call with
  | .error _ => (generateFallbackProjectAnalysis files, k + 1)
  | .ok text =>
    match Json.parse (extractJsonFromResponse text) with
    | some parsed =>
      (Json.obj [
        ("structure", match parsed.getKey "structure" with
          | some v => if v.truthy then v else Json.obj []
          | none => Json.obj []),
        ("dependencies", .arr ((extractDependencies files).map Json.str)),
        ("frameworks", .arr ((detectFrameworks files).map Json.str)),
        ("testableClasses", match parsed.getKey "testableClasses" with
          | some v => if v.truthy then v else Json.arr []
          | none => Json.arr []),
        ("apiEndpoints", .arr (extractApiEndpoints files)),
        ("complexity", match parsed.getKey "complexity" with
          | some v => if v.truthy then v else Json.str "medium"
          | none => Json.str "medium")], k + 1)
    | none => (generateFallbackProjectAnalysis files, k + 1)

/-- Analysis phase of `generateTestCases`: `getAIModel` throwing (no API
key) is the one exception its `try` block can see, turning `useAI` off
with the fallback analysis; otherwise the input-type switch dispatches,
and every analyzer absorbs its own failures.  Returns
(`useAI`, analysis, next call index). -/
def analysisPhase (env : Env) (req : TestGenerationRequest) (k : Nat) : Bool × Json × Nat :=
  if env.hasApiKey then
    if req.inputType = "git_repo" then
      let (a, kk) := analyzeGitRepository env req.inputData k
      (true, a, kk)
    else if req.inputType = "postman_collection" then
      let (a, kk) := analyzePostmanCollection env req.inputData k
      (true, a, kk)
    else if req.inputType = "web_url" then
      let (a, kk) := analyzeWebPage env req.inputData k
      (true, a, kk)
    else if req.inputType = "code" && jsIncludes req.inputData "// File:" then
      let (a, kk) := analyzeUploadedFiles env (parseUploadedFiles req.inputData) k
      (true, a, kk)
    else
      let (a, kk) := analyzeInput env req k
      (true, a, kk)
  else (false, getFallbackAnalysis req, k)

/-! ## Per-kind generation -/

/-- Mirror of `generateSingleUnitTest`. -/
def generateSingleUnitTest (env : Env) (req : TestGenerationRequest) (_analysis : Json) (k : Nat) :
    Except JsError GeneratedTest × Nat :=
  let call : GenCall :=
    { system := getSystemPrompt "unit" req.language,
      prompt := "Generate a " ++ req.language ++ " unit test for: " ++ substrTake req.inputData 800 ++ "\n\nRequirements:\n- Use " ++ getTestingFramework req.language ++ "\n- Include setup, test methods, and assertions\n- Test positive and negative cases\n- Follow best practices\n\nGenerate complete test code.",
      maxTokens := 1500 }
  match env.gen k call with
  | .error e => (.error e, k + 1)
  | .ok text =>
    (.ok { type := "unit", content := text,
           filename := generateFilename "unit" req.language req.inputData,
           description := "Unit test for " ++ req.inputType,
           coverage := ["Method functionality", "Edge cases", "Error handling"],
           dependencies := getDefaultDependencies "unit" req.language,
           category := some "main" }, k + 1)

/-- Mirror of `generateSingleBDDTest`. -/
def generateSingleBDDTest (env : Env) (req : TestGenerationRequest) (_analysis : Json) (k : Nat) :
    Except JsError GeneratedTest × Nat :=
  let call : GenCall :=
    { system := getSystemPrompt "bdd" req.language,
      prompt := "Generate a BDD feature file for: " ++ substrTake req.inputData 800 ++ "\n\nRequirements:\n- Use Gherkin syntax (Given-When-Then)\n- Include multiple scenarios\n- Add examples for data-driven testing\n- Cover positive and negative cases\n\nGenerate complete feature file.",
      maxTokens := 1200 }
  match env.gen k call with
  | .error e => (.error e, k + 1)
  | .ok text =>
    (.ok { type := "bdd", content := text,
           filename := generateFilename "bdd" req.language req.inputData,
           description := "BDD scenarios for " ++ req.inputType,
           coverage := ["User workflows", "Business rules", "Integration scenarios"],
           dependencies := getDefaultDependencies "bdd" req.language,
           category := some "main" }, k + 1)

/-- Mirror of `generateSingleAPITest`. -/
def generateSingleAPITest (env : Env) (req : TestGenerationRequest) (_analysis : Json) (k : Nat) :
    Except JsError GeneratedTest × Nat :=
  let call : GenCall :=
    { system := getSystemPrompt "api" req.language,
      prompt := "Generate " ++ req.language ++ " API tests for: " ++ substrTake req.inputData 800 ++ "\n\nRequirements:\n- Test HTTP methods (GET, POST, PUT, DELETE)\n- Validate status codes and response body\n- Include authentication testing\n- Test error scenarios\n\nGenerate complete API test code.",
      maxTokens := 1500 }
  match env.gen k call with
  | .error e => (.error e, k + 1)
  | .ok text =>
    (.ok { type := "api", content := text,
           filename := generateFilename "api" req.language req.inputData,
           description := "API tests for " ++ req.inputType,
           coverage := ["HTTP methods", "Status codes", "Data validation"],
           dependencies := getDefaultDependencies "api" req.language,
           category := some "main" }, k + 1)

/-- Mirror of `generateSingleUITest`. -/
def generateSingleUITest (env : Env) (req : TestGenerationRequest) (_analysis : Json) (k : Nat) :
    Except JsError GeneratedTest × Nat :=
  let call : GenCall :=
    { system := getSystemPrompt "ui" req.language,
      prompt := "Generate " ++ req.language ++ " UI tests for: " ++ substrTake req.inputData 800 ++ "\n\nRequirements:\n- Use Selenium WebDriver\n- Implement Page Object Model\n- Test user interactions and validations\n- Include cross-browser support\n\nGenerate complete UI test code.",
      maxTokens := 1500 }
  match env.gen k call with
  | .error e => (.error e, k + 1)
  | .ok text =>
    (.ok { type := "ui", content := text,
           filename := generateFilename "ui" req.language req.inputData,
           description := "UI tests for " ++ req.inputType,
           coverage := ["User interactions", "Form validation", "Navigation"],
           dependencies := getDefaultDependencies "ui" req.language,
           category := some "main" }, k + 1)

/-- Mirror of `generateSinglePerformanceTest`. -/
def generateSinglePerformanceTest (env : Env) (req : TestGenerationRequest) (_analysis : Json) (k : Nat) :
    Except JsError GeneratedTest × Nat :=
  let call : GenCall :=
    { system := getSystemPrompt "performance" req.language,
      prompt := "Generate performance tests for: " ++ substrTake req.inputData 800 ++ "\n\nRequirements:\n- Create load testing scenarios\n- Include response time monitoring\n- Test concurrent users\n- Generate performance reports\n\nGenerate complete performance test code.",
      maxTokens := 1500 }
  match env.gen k call with
  | .error e => (.error e, k + 1)
  | .ok text =>
    (.ok { type := "performance", content := text,
           filename := generateFilename "performance" req.language req.inputData,
           description := "Performance tests for " ++ req.inputType,
           coverage := ["Load testing", "Stress testing", "Scalability"],
           dependencies := getDefaultDependencies "performance" req.language,
           category := some "main" }, k + 1)

/-- Prompt of the per-class call in `generateProjectLevelUnitTests`. -/
def classPrompt (req : TestGenerationRequest) (analysis testableClass : Json) : String :=
  "Generate comprehensive " ++ req.language ++ " unit tests for this class:\n\nClass: " ++
  displayOpt (testableClass.getKey "className") ++
  "\nPackage: " ++ truthyOrStr (testableClass.getKey "package") "com.example" ++
  "\nMethods: " ++ joinOr (testableClass.getKey "methods") ", " "standard methods" ++
  "\nDependencies: " ++ joinOr (testableClass.getKey "dependencies") ", " "none" ++
  "\nComplexity: " ++ truthyOrStr (testableClass.getKey "complexity") "medium" ++
  "\n\nProject Context:\n- Framework: " ++ joinOr (analysis.getKey "frameworks") ", " "Standard" ++
  "\n- Dependencies: " ++ joinOr (analysis.getKey "dependencies") ", " "Standard" ++
  "\n- Architecture: " ++ truthyOrStr ((analysis.getKey "structure").bind fun s => s.getKey "architecture") "Standard" ++
  "\n\nRequirements:\n1. Use " ++ getTestingFramework req.language ++
  "\n2. Mock all external dependencies\n3. Test all public methods with positive, negative, and edge cases\n4. Include proper setup and teardown\n5. Use descriptive test names\n6. Follow " ++
  req.language ++ " best practices\n7. Include exception testing\n8. Add parameterized tests where appropriate\n\nGenerate complete, production-ready test class."

/-- Per-class loop of `generateProjectLevelUnitTests`: a model failure for
one class is absorbed by the class-specific template. -/
def projectLoop (env : Env) (req : TestGenerationRequest) (analysis : Json) :
    List Json → Nat → List GeneratedTest × Nat
  | [], k => ([], k)
  | c :: cls, k =>
    let step : GeneratedTest :=
      match env.gen k { system := getSystemPrompt "unit" req.language,
                        prompt := classPrompt req analysis c, maxTokens := 2000 } with
      | .ok text =>
        { type := "unit", content := text,
          filename := displayOpt (c.getKey "className") ++ "Test." ++ getFileExtension req.language,
          description := "Comprehensive unit tests for " ++ displayOpt (c.getKey "className"),
          coverage := ["All methods of " ++ displayOpt (c.getKey "className"),
                       "Edge cases and error scenarios", "Dependency mocking", "Exception handling"],
          dependencies := getDefaultDependencies "unit" req.language,
          category := some "main" }
      | .error _ => generateClassSpecificTemplate req c
    let (rest, kk) := projectLoop env req analysis cls (k + 1)
    (step :: rest, kk)

/-- Mirror of `generateProjectLevelUnitTests`: at most ten classes, plus a
suite runner when more than one test came out. -/
def generateProjectLevelUnitTests (env : Env) (req : TestGenerationRequest) (analysis : Json) (k : Nat) :
    List GeneratedTest × Nat :=
  let classes :=
    match analysis.getKey "testableClasses" with
    | some (.arr xs) => xs.take 10
    | _ => []
  let (tests, kk) := projectLoop env req analysis classes k
  (if tests.length > 1 then tests ++ [generateTestSuiteRunner req tests analysis] else tests, kk)

/-- Wraps a single-test result into the list form of
`generateSpecificTestType`. -/
def liftSingle : Except JsError GeneratedTest × Nat → Except JsError (List GeneratedTest) × Nat
  | (.ok t, k) => (.ok [t], k)
  | (.error e, k) => (.error e, k)

/-- Mirror of `generateSpecificTestType`: the unit branch takes the
project-level path when the analysis carries more than one testable class
(non-array `testableClasses` values, whose `.length` JavaScript would read
off a string, are treated as not taking that path); an unknown kind falls
through the switch to an empty list. -/
def generateSpecificTestType (env : Env) (req : TestGenerationRequest) (testType : String)
    (analysis : Json) (k : Nat) : Except JsError (List GeneratedTest) × Nat :=
  if testType = "unit" then
    match analysis.getKey "testableClasses" with
    | some (.arr xs) =>
      if xs.length > 1 then
        let (ts, kk) := generateProjectLevelUnitTests env req analysis k
        (.ok ts, kk)
      else liftSingle (generateSingleUnitTest env req analysis k)
    | _ => liftSingle (generateSingleUnitTest env req analysis k)
  else if testType = "bdd" then liftSingle (generateSingleBDDTest env req analysis k)
  else if testType = "api" then liftSingle (generateSingleAPITest env req analysis k)
  else if testType = "ui" then liftSingle (generateSingleUITest env req analysis k)
  else if testType = "performance" then liftSingle (generateSinglePerformanceTest env req analysis k)
  else (.ok [], k)

/-- One iteration of the per-kind loop in `generateTestCases`, with its
two nested catches: a quota error substitutes `generateTestFromTemplate`,
any other throw (including `getAIModel` itself) substitutes
`generateBasicTestTemplate`. -/
def genForKind (env : Env) (req : TestGenerationRequest) (useAI : Bool) (analysis : Json)
    (testType : String) (k : Nat) : List GeneratedTest × Nat :=
  if useAI then
    match getAIModel env with
    | .error _ => ((generateBasicTestTemplate req testType).toList, k)
    | .ok _ =>
      match generateSpecificTestType env req testType analysis k with
      | (.ok ts, kk) => (ts, kk)
      | (.error e, kk) =>
        if isQuotaError e.message then (generateTestFromTemplate req testType analysis, kk)
        else ((generateBasicTestTemplate req testType).toList, kk)
  else (generateTestFromTemplate req testType analysis, k)

/-- The per-kind loop of `generateTestCases`. -/
def perKindLoop (env : Env) (req : TestGenerationRequest) (useAI : Bool) (analysis : Json) :
    List String → Nat → List GeneratedTest × Nat
  | [], k => ([], k)
  | t :: ts, k =>
    let (one, k1) := genForKind env req useAI analysis t k
    let (rest, k2) := perKindLoop env req useAI analysis ts k1
    (one ++ rest, k2)

/-- Mirror of `generateTestCases`: analysis phase, per-kind loop, then the
absolute fallback — a basic template for the first requested kind when
nothing was produced, or the final thrown error when even that is `null`
(which also covers `testTypes[0]` of an empty list being `undefined`). -/
def generateTestCases (env : Env) (req : TestGenerationRequest) (k : Nat) :
    Except JsError (List GeneratedTest) × Nat :=
  let (useAI, analysis, k1) := analysisPhase env req k
  let (tests, k2) := perKindLoop env req useAI analysis req.testTypes k1
  match tests with
  | [] =>
    match req.testTypes.head? >>= fun t0 => generateBasicTestTemplate req t0 with
    | some b => (.ok [b], k2)
    | none => (.error ⟨"Unable to generate any tests. Please try again later or check your quota limits."⟩, k2)
  | _ => (.ok tests, k2)

/-! ## Authentication (lib/auth.ts)

The `jsonwebtoken` library is external to the repository; it is modelled
abstractly by the `Token` type: signing records exactly the payload, the
issue and expiry instants and the signing secret, and verification either
recovers the payload or throws (bad signature, expiry, or a malformed
token string).  The wrappers `generateToken`/`verifyToken` are the
repository's code. -/

/-- Mirror of the `AuthUser` interface. -/
structure AuthUser where
  id : String
  email : String
  name : String
  role : String
  plan : String
deriving DecidableEq

/-- Payload that `generateToken` signs. -/
structure JwtClaims where
  id : String
  email : String
  role : String
  plan : String
deriving DecidableEq

/-- Abstract JWT: a well-formed signed token or an arbitrary malformed
string. -/
inductive Token where
  | signed (claims : JwtClaims) (iat : Nat) (expiresAt : Nat) (secret : String)
  | malformed (raw : String)
deriving DecidableEq

/-- Model of `jwt.sign(payload, secret, { expiresIn })` (`now` and the
expiry in seconds since the epoch). -/
def jwtSign (claims : JwtClaims) (secret : String) (expiresInSec now : Nat) : Token :=
  .signed claims now (now + expiresInSec) secret

/-- Model of `jwt.verify(token, secret)`: throws on a malformed token, a
wrong signature, or an expired token; otherwise returns the payload. -/
def jwtVerify (t : Token) (secret : String) (now : Nat) : Except JsError JwtClaims :=
  match t with
  | .malformed _ => .error ⟨"jwt malformed"⟩
  | .signed c _ e s =>
    if s = secret then
      if now < e then .ok c else .error ⟨"jwt expired"⟩
    else .error ⟨"invalid signature"⟩

/-- The `expiresIn: "7d"` option, in seconds. -/
def sevenDaysSec : Nat := 7 * 24 * 60 * 60

/-- Mirror of `generateToken`: signs `{id, email, role, plan}` of the user
with a seven-day expiry. -/
def generateToken (u : AuthUser) (secret : String) (now : Nat) : Token :=
  jwtSign { id := u.id, email := u.email, role := u.role, plan := u.plan } secret sevenDaysSec now

/-- Mirror of `verifyToken`: `jwt.verify` in a `try/catch` returning
`null` on any error. -/
def verifyToken (t : Token) (secret : String) (now : Nat) : Option JwtClaims :=
  match jwtVerify t secret now with
  | .ok c => some c
  | .error _ => none

/-! ## Database rows (lib/database.ts) -/

/-- Row of `test_cases` (the columns the embedded routes read or write;
`created_at`/`updated_at` defaults are represented by list position, inserts
appending and `ORDER BY created_at DESC` reversing). -/
structure TestCaseRow where
  id : String
  project_id : Option String
  name : String
  type : String
  content : String
  input_source : String
  ai_model_used : String
  created_by : String
  metadata : String
deriving DecidableEq

/-- Row of `test_executions`. -/
structure ExecutionRow where
  id : String
  test_case_id : String
  status : String
  duration : Int
  environment : Option String
  triggered_by : String
  logs : String
deriving DecidableEq

/-- Row of `audit_logs`. -/
structure AuditRow where
  user_id : String
  action : String
  resource_type : String
  resource_id : String
  ip_address : String
  user_agent : String
deriving DecidableEq

/-- The tables the embedded routes touch; `users` keeps the only column
they read, `(id, plan)`. -/
structure Db where
  users : List (String × String)
  testCases : List TestCaseRow
  executions : List ExecutionRow
  auditLogs : List AuditRow
deriving DecidableEq

/-- Model of `SELECT plan FROM users WHERE id = ?`. -/
def userPlan? (db : Db) (uid : String) : Option String :=
  (db.users.find? fun p => p.1 = uid).map fun p => p.2

/-- Model of `SELECT COUNT(*) FROM test_cases WHERE created_by = ?`. -/
def testCaseCountFor (db : Db) (uid : String) : Nat :=
  (db.testCases.filter fun r => r.created_by = uid).length

/-- The `planLimits` object with its `|| 100` default. -/
def planLimit (plan : String) : Nat :=
  if plan = "free" then 100
  else if plan = "basic" then 1000
  else if plan = "pro" then 5000
  else if plan = "enterprise" then 999999
  else 100

/-! ## POST /api/generate-tests -/

/-- Parsed JSON body of the generate-tests request (fields absent from the
JSON are `none`). -/
structure GenerateBody where
  inputType : Option String
  inputData : Option String
  testTypes : Option (List String)
  language : Option String
  additionalContext : Option String
  framework : Option String
  testingLibrary : Option String
  projectId : Option String
  aiModel : Option String
deriving DecidableEq

/-- The `usage` object of the success response. -/
structure UsageInfo where
  current : Nat
  limit : Nat
  remaining : Int
deriving DecidableEq

/-- One element of the success response's `tests` array: the generated
artifact together with its freshly minted row id. -/
structure SavedTest where
  id : String
  test : GeneratedTest
deriving DecidableEq

/-- The response shapes of the generate-tests handler, one constructor per
`NextResponse.json` call in the source. -/
inductive GenResponse where
  | noToken
  | invalidToken
  | missingFields
  | tooLarge
  | limitReached (limit : Nat) (current : Nat)
  | ok (tests : List SavedTest) (message : String) (usage : UsageInfo) (notice : String)
  | quotaFallback
  | rateLimited
  | apiKeyError
  | genericError
deriving DecidableEq

/-- HTTP status of each response shape. -/
def GenResponse.status : GenResponse → Nat
  | .noToken => 401
  | .invalidToken => 401
  | .missingFields => 400
  | .tooLarge => 400
  | .limitReached _ _ => 429
  | .ok _ _ _ _ => 200
  | .quotaFallback => 429
  | .rateLimited => 429
  | .apiKeyError => 500
  | .genericError => 500

/-- The metadata object serialized for each saved test: `JSON.stringify`
drops fields whose value is `undefined`, so the optional request fields
contribute members only when present. -/
def metadataJson (t : GeneratedTest) (body : GenerateBody) (nowIso : String) : Json :=
  Json.obj (
    [("description", Json.str t.description),
     ("coverage", Json.arr (t.coverage.map Json.str)),
     ("dependencies", Json.arr (t.dependencies.map Json.str))]
    ++ (match body.language with | some l => [("language", Json.str l)] | none => [])
    ++ (match body.framework with | some f => [("framework", Json.str f)] | none => [])
    ++ (match body.testingLibrary with | some tl => [("testingLibrary", Json.str tl)] | none => [])
    ++ (match body.inputType with | some it => [("inputType", Json.str it)] | none => [])
    ++ [("generatedAt", Json.str nowIso), ("quotaOptimized", Json.bool true)])

/-- The `test_cases` row inserted for one generated test. -/
def mkTestCaseRow (env : Env) (body : GenerateBody) (uid : String) (t : GeneratedTest) (idStr : String) : TestCaseRow :=
  { id := idStr, project_id := body.projectId, name := t.filename, type := t.type,
    content := t.content, input_source := substrTake (body.inputData.getD "") 500,
    ai_model_used := "gemini-1.5-flash", created_by := uid,
    metadata := Json.stringify (metadataJson t body env.nowIso) }

/-- Mirror of the POST handler of `/api/generate-tests`.  Returns the
response, the database after the handler, and the number of model calls
consumed (`0` whenever `generateTestCases` was never invoked).  The auth
header is modelled as `Option Token` (absent or non-Bearer collapses to
`none`); a missing user row makes `user.plan` throw, which the top-level
catch turns into the generic 500. -/
def postGenerateTests (env : Env) (db : Db) (auth : Option Token) (secret : String) (now : Nat)
    (body : GenerateBody) (reqIp reqUa : Option String) : GenResponse × Db × Nat :=
  match auth with
  | none => (.noToken, db, 0)
  | some tok =>
    match verifyToken tok secret now with
    | none => (.invalidToken, db, 0)
    | some decoded =>
      let data := body.inputData.getD ""
      if body.inputData = none || data = "" || body.testTypes = none || body.testTypes = some [] then
        (.missingFields, db, 0)
      else if data.data.length > 5000 then (.tooLarge, db, 0)
      else
        match userPlan? db decoded.id with
        | none => (.genericError, db, 0)
        | some plan =>
          let userLimit := planLimit plan
          let currentUsage := testCaseCountFor db decoded.id
          if currentUsage ≥ userLimit then (.limitReached userLimit currentUsage, db, 0)
          else
            let req : TestGenerationRequest :=
              { inputType := body.inputType.getD "undefined", inputData := data,
                testTypes := body.testTypes.getD [], language := body.language.getD "undefined",
                additionalContext := body.additionalContext, framework := body.framework,
                testingLibrary := body.testingLibrary, aiModel := some "gemini-1.5-flash" }
            match generateTestCases env req 0 with
            | (.error e, k) =>
              (if isQuotaError e.message then .quotaFallback
               else if jsIncludes e.message "rate limit" then .rateLimited
               else if jsIncludes e.message "API key" then .apiKeyError
               else .genericError, db, k)
            | (.ok gts, k) =>
              let rows := gts.enum.map fun p => mkTestCaseRow env body decoded.id p.2 (env.freshId p.1)
              let saved := gts.enum.map fun p => ({ id := env.freshId p.1, test := p.2 } : SavedTest)
              let audit : AuditRow :=
                { user_id := decoded.id, action := "test_generation", resource_type := "test_cases",
                  resource_id := String.intercalate "," (saved.map fun s => s.id),
                  ip_address := reqIp.getD "unknown", user_agent := reqUa.getD "unknown" }
              (.ok saved "Tests generated successfully (quota-optimized)"
                 { current := currentUsage + gts.length, limit := userLimit,
                   remaining := (userLimit : Int) - ((currentUsage + gts.length : Nat) : Int) }
                 "Using efficient generation to manage API quotas. For more advanced AI features, consider upgrading your Google AI Studio plan.",
               { db with testCases := db.testCases ++ rows, auditLogs := db.auditLogs ++ [audit] }, k)

/-! ## GET /api/test-cases -/

/-- Response shapes of the test-cases GET handler (the LEFT JOIN's
`project_name` column is not modelled). -/
inductive TestCasesResponse where
  | noToken
  | invalidToken
  | ok (testCases : List TestCaseRow)
deriving DecidableEq

/-- Mirror of the GET handler of `/api/test-cases`: the caller's rows,
most recent first (inserts append and `created_at` increases, so
`ORDER BY created_at DESC` is the reverse of insertion order). -/
def getTestCases (db : Db) (auth : Option Token) (secret : String) (now : Nat) : TestCasesResponse :=
  match auth with
  | none => .noToken
  | some tok =>
    match verifyToken tok secret now with
    | none => .invalidToken
    | some decoded => .ok ((db.testCases.filter fun r => r.created_by = decoded.id).reverse)

/-! ## POST /api/executions -/

/-- Parsed JSON body of the executions request. -/
structure ExecBody where
  testCaseIds : Option (List String)
  environment : Option String
deriving DecidableEq

/-- One element of the response's `executions` array (the inserted row
without `triggered_by`). -/
structure ExecEcho where
  id : String
  test_case_id : String
  status : String
  duration : Int
  environment : Option String
  logs : String
deriving DecidableEq

/-- Response shapes of the executions POST handler. -/
inductive ExecResponse where
  | noToken
  | invalidToken
  | missingIds
  | ok (executions : List ExecEcho) (message : String)
deriving DecidableEq

/-- Success log text. -/
def passLogs : String := "Test executed successfully\nAll assertions passed\nExecution completed"

/-- Failure log text. -/
def failLogs : String := "Test failed\nAssertion error: Expected value did not match\nExecution failed"

/-- One simulated execution: `generateId` consumes one random draw, the
duration `Math.floor(Math.random() * 5000) + 1000` the next, and the
status `Math.random() > 0.2 ? "passed" : "failed"` the third (the
float arithmetic of the original is modelled exactly over `ℚ`). -/
def execOne (env : Env) (uid : String) (environment : Option String) (tcId : String) (r : Nat) : ExecutionRow :=
  let idStr := env.freshId r
  let duration : Int := ⌊env.randQ (r + 1) * 5000⌋ + 1000
  let status := if env.randQ (r + 2) > (1 : ℚ) / 5 then "passed" else "failed"
  { id := idStr, test_case_id := tcId, status := status, duration := duration,
    environment := environment, triggered_by := uid,
    logs := if status = "passed" then passLogs else failLogs }

/-- The insert loop over the supplied test-case ids. -/
def execLoop (env : Env) (uid : String) (environment : Option String) :
    List String → Nat → List ExecutionRow × Nat
  | [], r => ([], r)
  | tc :: tcs, r =>
    let row := execOne env uid environment tc r
    let (rest, r2) := execLoop env uid environment tcs (r + 3)
    (row :: rest, r2)

/-- Echo of an inserted execution row in the response body. -/
def echoOf (row : ExecutionRow) : ExecEcho :=
  { id := row.id, test_case_id := row.test_case_id, status := row.status,
    duration := row.duration, environment := row.environment, logs := row.logs }

/-- Mirror of the POST handler of `/api/executions`. -/
def postExecutions (env : Env) (db : Db) (auth : Option Token) (secret : String) (now : Nat)
    (body : ExecBody) : ExecResponse × Db × Nat :=
  match auth with
  | none => (.noToken, db, 0)
  | some tok =>
    match verifyToken tok secret now with
    | none => (.invalidToken, db, 0)
    | some decoded =>
      match body.testCaseIds with
      | none => (.missingIds, db, 0)
      | some [] => (.missingIds, db, 0)
      | some ids =>
        let (rows, r) := execLoop env decoded.id body.environment ids 0
        (.ok (rows.map echoOf) "Tests executed successfully",
         { db with executions := db.executions ++ rows }, r)

/-! ## Proof-support definitions (no source counterpart: fuel measure for
the parser and a boundary predicate used by the round-trip statements) -/

mutual

/-- Fuel sufficient for `parseVal` on the printed form of a value. -/
def jsonCost : Json → Nat
  | .null => 1
  | .bool _ => 1
  | .num _ => 1
  | .str _ => 1
  | .arr xs => 2 + jsonCostItems xs
  | .obj kvs => 2 + jsonCostMembers kvs

/-- Fuel sufficient for `parseItems` on printed elements. -/
def jsonCostItems : List Json → Nat
  | [] => 0
  | x :: xs => 1 + max (jsonCost x) (jsonCostItems xs)

/-- Fuel sufficient for `parseMembers` on printed members. -/
def jsonCostMembers : List (String × Json) → Nat
  | [] => 0
  | kv :: kvs => 1 + max (jsonCost kv.2) (jsonCostMembers kvs)

end

/-- Input whose head is not a decimal digit (so that a printed number
followed by it parses back to exactly that number). -/
def ndh : List Char → Bool
  | [] => true
  | c :: _ => !isDigitC c

/-- The five test kinds the `templates` object of
`generateBasicTestTemplate` and the `generateSpecificTestType` switch
know. -/
def isValidKind (t : String) : Bool :=
  t = "unit" || t = "bdd" || t = "api" || t = "ui" || t = "performance"

end AutoTestAI

namespace AutoTestAI

/-! ## Round-trip lemmas for the JSON embedding -/

theorem char_ne_of_toNat {c d : Char} (h : c.toNat ≠ d.toNat) : c ≠ d := by
  intro e; exact h (by rw [e])

theorem skipWs_cons_not {c : Char} {l : List Char}
    (h : (c = ' ' || c = '\t' || c = '\n' || c = '\r') = false) : skipWs (c :: l) = c :: l := by
  simp only [skipWs, h]; rfl

theorem isDigitC_bounds {c : Char} (h : isDigitC c = true) : 48 ≤ c.toNat ∧ c.toNat ≤ 57 := by
  simpa [isDigitC] using h

theorem isDigitC_not_ws {c : Char} (h : isDigitC c = true) :
    (c = ' ' || c = '\t' || c = '\n' || c = '\r') = false := by
  obtain ⟨h1, h2⟩ := isDigitC_bounds h
  have hs : c ≠ ' ' := char_ne_of_toNat (by intro e; rw [e] at h1; revert h1; decide)
  have ht : c ≠ '\t' := char_ne_of_toNat (by intro e; rw [e] at h1; revert h1; decide)
  have hn : c ≠ '\n' := char_ne_of_toNat (by intro e; rw [e] at h1; revert h1; decide)
  have hr : c ≠ '\r' := char_ne_of_toNat (by intro e; rw [e] at h1; revert h1; decide)
  simp [hs, ht, hn, hr]

theorem digitChar_isDigit {d : Nat} (h : d < 10) : isDigitC (digitChar d) = true := by
  interval_cases d <;> decide

theorem digitChar_toNat {d : Nat} (h : d < 10) : (digitChar d).toNat = 48 + d := by
  interval_cases d <;> decide

theorem natDigitsRev_digits : ∀ n c, c ∈ natDigitsRev n → isDigitC c = true := by
  intro n
  induction n using Nat.strong_induction_on with
  | _ n ih =>
    match n with
    | 0 => intro c hc; simp [natDigitsRev] at hc
    | m + 1 =>
      intro c hc
      rw [natDigitsRev] at hc
      rcases List.mem_cons.mp hc with h | h
      · subst h; exact digitChar_isDigit (Nat.mod_lt _ (by omega))
      · exact ih ((m + 1) / 10) (Nat.div_lt_self (by omega) (by omega)) c h

theorem natDigitsRev_ne_nil {n : Nat} (h : 0 < n) : natDigitsRev n ≠ [] := by
  match n, h with
  | m + 1, _ => rw [natDigitsRev]; simp

theorem natChars_digits : ∀ n c, c ∈ natChars n → isDigitC c = true := by
  intro n c hc
  by_cases h : n = 0
  · subst h; simp [natChars] at hc; subst hc; decide
  · simp [natChars, h] at hc
    exact natDigitsRev_digits n c hc

theorem natChars_ne_nil (n : Nat) : natChars n ≠ [] := by
  by_cases h : n = 0
  · subst h; simp [natChars]
  · simp [natChars, h]
    exact natDigitsRev_ne_nil (Nat.pos_of_ne_zero h)

theorem spanDigits_append {ds rest : List Char} (hd : ∀ c ∈ ds, isDigitC c = true)
    (hr : ndh rest = true) : spanDigits (ds ++ rest) = (ds, rest) := by
  induction ds with
  | nil =>
    simp only [List.nil_append]
    match rest, hr with
    | [], _ => rfl
    | c :: cs, hr =>
      have : isDigitC c = false := by simpa [ndh] using hr
      simp [spanDigits, this]
  | cons c cs ih =>
    have hc : isDigitC c = true := hd c (List.mem_cons_self c cs)
    have := ih (fun d hdm => hd d (List.mem_cons_of_mem c hdm))
    simp [spanDigits, hc, this]

theorem digitsVal_append (l1 l2 : List Char) :
    digitsVal (l1 ++ l2) = l2.foldl (fun a c => a * 10 + (c.toNat - 48)) (digitsVal l1) := by
  simp [digitsVal, List.foldl_append]

theorem digitsVal_natChars : ∀ n, digitsVal (natChars n) = n := by
  have key : ∀ n, (natDigitsRev n).foldr (fun c a => a * 10 + (c.toNat - 48)) 0 = n := by
    intro n
    induction n using Nat.strong_induction_on with
    | _ n ih =>
      match n with
      | 0 => simp [natDigitsRev]
      | m + 1 =>
        rw [natDigitsRev]
        simp only [List.foldr_cons]
        rw [ih ((m + 1) / 10) (Nat.div_lt_self (by omega) (by omega))]
        rw [digitChar_toNat (Nat.mod_lt _ (by omega))]
        omega
  intro n
  by_cases h : n = 0
  · subst h; simp [natChars, digitsVal]
  · simp only [natChars, h, if_false]
    unfold digitsVal
    rw [List.foldl_reverse]
    exact key n

theorem hexVal_hexDigitChar {m : Nat} (h : m < 16) : hexVal (hexDigitChar m) = some m := by
  interval_cases m <;> decide

theorem parseStrBody_escape : ∀ (l rest : List Char),
    parseStrBody (jsonEscape l ++ '"' :: rest) = some (l, rest) := by
  intro l
  induction l with
  | nil =>
    intro rest
    rw [parseStrBody.eq_def]
    simp +decide [jsonEscape]
  | cons c cs ih =>
    intro rest
    have hesc : jsonEscape (c :: cs) = jsonEscapeChar c ++ jsonEscape cs := by
      simp [jsonEscape]
    rw [hesc, List.append_assoc]
    by_cases h1 : c = '"'
    · subst h1; rw [parseStrBody.eq_def]; simp +decide [jsonEscapeChar, ih]
    · by_cases h2 : c = '\\'
      · subst h2; rw [parseStrBody.eq_def]; simp +decide [jsonEscapeChar, ih]
      · by_cases h3 : c = '\x08'
        · subst h3; rw [parseStrBody.eq_def]; simp +decide [jsonEscapeChar, ih]
        · by_cases h4 : c = '\x0c'
          · subst h4; rw [parseStrBody.eq_def]; simp +decide [jsonEscapeChar, ih]
          · by_cases h5 : c = '\n'
            · subst h5; rw [parseStrBody.eq_def]; simp +decide [jsonEscapeChar, ih]
            · by_cases h6 : c = '\r'
              · subst h6; rw [parseStrBody.eq_def]; simp +decide [jsonEscapeChar, ih]
              · by_cases h7 : c = '\t'
                · subst h7; rw [parseStrBody.eq_def]; simp +decide [jsonEscapeChar, ih]
                · by_cases h8 : c.toNat < 32
                  · have e1 : hexVal (hexDigitChar (c.toNat / 16)) = some (c.toNat / 16) :=
                      hexVal_hexDigitChar (by omega)
                    have e2 : hexVal (hexDigitChar (c.toNat % 16)) = some (c.toNat % 16) :=
                      hexVal_hexDigitChar (by omega)
                    have e3 : ((0 * 16 + 0) * 16 + c.toNat / 16) * 16 + c.toNat % 16 = c.toNat := by
                      omega
                    have e4 : c.toNat / 16 * 16 + c.toNat % 16 = c.toNat := by omega
                    have h0 : hexVal '0' = some 0 := by decide
                    simp only [jsonEscapeChar, if_neg h1, if_neg h2, if_neg h3, if_neg h4,
                      if_neg h5, if_neg h6, if_neg h7, if_pos h8]
                    rw [parseStrBody.eq_def]
                    simp +decide [h0, e1, e2, e3, e4, Char.ofNat_toNat, ih]
                  · simp only [jsonEscapeChar, if_neg h1, if_neg h2, if_neg h3, if_neg h4,
                      if_neg h5, if_neg h6, if_neg h7, if_neg h8]
                    rw [parseStrBody.eq_def]
                    simp +decide [h1, h2, h8, ih]

theorem jsonCost_pos : ∀ v : Json, 1 ≤ jsonCost v := by
  intro v
  cases v <;> simp [jsonCost] <;> omega

theorem digit_head_neqs {c : Char} (h : isDigitC c = true) :
    c ≠ '\x7b' ∧ c ≠ '[' ∧ c ≠ '"' ∧ c ≠ 't' ∧ c ≠ 'f' ∧ c ≠ 'n' ∧ c ≠ '-' ∧ c ≠ ']' ∧ c ≠ '\x7d' := by
  obtain ⟨h1, h2⟩ := isDigitC_bounds h
  refine ⟨?_, ?_, ?_, ?_, ?_, ?_, ?_, ?_, ?_⟩ <;>
    exact char_ne_of_toNat (by intro e; rw [e] at h1 h2; revert h1 h2; decide)

theorem stringify_head : ∀ v : Json, ∃ c t, stringifyV v = c :: t ∧
    (c = ' ' || c = '\t' || c = '\n' || c = '\r') = false ∧ c ≠ ']' ∧ c ≠ '\x7d' := by
  intro v
  match v with
  | .null => exact ⟨'n', _, rfl, by decide, by decide, by decide⟩
  | .bool true => exact ⟨'t', _, rfl, by decide, by decide, by decide⟩
  | .bool false => exact ⟨'f', _, rfl, by decide, by decide, by decide⟩
  | .str s => exact ⟨'"', _, rfl, by decide, by decide, by decide⟩
  | .arr xs => exact ⟨'[', _, rfl, by decide, by decide, by decide⟩
  | .obj kvs => exact ⟨'\x7b', _, rfl, by decide, by decide, by decide⟩
  | .num i =>
    by_cases hi : i < 0
    · exact ⟨'-', natChars i.natAbs, by simp [stringifyV, intChars, hi], by decide, by decide, by decide⟩
    · obtain ⟨c, t, hct⟩ : ∃ c t, natChars i.natAbs = c :: t := by
        match hnc : natChars i.natAbs with
        | [] => exact absurd hnc (natChars_ne_nil _)
        | cc :: tt => exact ⟨cc, tt, rfl⟩
      have hd : isDigitC c = true :=
        natChars_digits _ c (by rw [hct]; exact List.mem_cons_self _ _)
      obtain ⟨-, -, -, -, -, -, -, hne1, hne2⟩ := digit_head_neqs hd
      exact ⟨c, t, by simp [stringifyV, intChars, hi, hct], isDigitC_not_ws hd, hne1, hne2⟩

theorem stringifyItems_cons (x : Json) (xs : List Json) :
    stringifyItems (x :: xs) =
      stringifyV x ++ (match xs with | [] => [] | _ :: _ => ',' :: stringifyItems xs) := by
  cases xs <;> simp [stringifyItems]

theorem stringifyMembers_cons (k : String) (v : Json) (kvs : List (String × Json)) :
    stringifyMembers ((k, v) :: kvs) =
      '"' :: (jsonEscape k.data ++ '"' :: ':' :: (stringifyV v ++
        (match kvs with | [] => [] | _ :: _ => ',' :: stringifyMembers kvs))) := by
  cases kvs <;> simp [stringifyMembers]

theorem ndh_cons (c : Char) (l : List Char) : ndh (c :: l) = !isDigitC c := rfl

theorem parse_print : ∀ f : Nat,
    (∀ v rest, jsonCost v ≤ f → ndh rest = true →
      parseVal f (stringifyV v ++ rest) = some (v, rest)) ∧
    (∀ xs rest, xs ≠ [] → jsonCostItems xs ≤ f →
      parseItems f (stringifyItems xs ++ ']' :: rest) = some (xs, rest)) ∧
    (∀ kvs rest, kvs ≠ [] → jsonCostMembers kvs ≤ f →
      parseMembers f (stringifyMembers kvs ++ '\x7d' :: rest) = some (kvs, rest)) := by
  intro f
  induction f using Nat.strong_induction_on with
  | _ f ih =>
  refine ⟨?_, ?_, ?_⟩
  · intro v rest hcost hrest
    obtain ⟨g, rfl⟩ : ∃ g, f = g + 1 := ⟨f - 1, by have := jsonCost_pos v; omega⟩
    cases v with
    | null =>
      rw [parseVal.eq_def]
      simp +decide [stringifyV, skipWs]
    | bool b =>
      cases b <;> (rw [parseVal.eq_def]; simp +decide [stringifyV, skipWs])
    | str s =>
      rw [parseVal.eq_def]
      have hp := parseStrBody_escape s.data rest
      have hmk : (⟨s.data⟩ : String) = s := rfl
      simp +decide [stringifyV, skipWs, hp, hmk]
    | num i =>
      rw [parseVal.eq_def]
      obtain ⟨c, t, hct⟩ : ∃ c t, natChars i.natAbs = c :: t := by
        match hnc : natChars i.natAbs with
        | [] => exact absurd hnc (natChars_ne_nil _)
        | cc :: tt => exact ⟨cc, tt, rfl⟩
      have hd : isDigitC c = true :=
        natChars_digits _ c (by rw [hct]; exact List.mem_cons_self _ _)
      have hspan : spanDigits (natChars i.natAbs ++ rest) = (natChars i.natAbs, rest) :=
        spanDigits_append (fun d hd' => natChars_digits _ d hd') hrest
      have hdv : digitsVal (natChars i.natAbs) = i.natAbs := digitsVal_natChars _
      obtain ⟨hq1, hq2, hq3, hq4, hq5, hq6, hq7, -, -⟩ := digit_head_neqs hd
      by_cases hi : i < 0
      · have hval : -((i.natAbs : Nat) : Int) = i := by omega
        have hval2 : -|i| = i := by rw [Int.abs_eq_natAbs]; omega
        rw [hct] at hspan hdv
        simp only [stringifyV, intChars, if_pos hi, List.cons_append, hct]
        simp +decide [skipWs, isDigitC_not_ws hd, hd,
          show spanDigits (c :: (t ++ rest)) = (c :: t, rest) by simpa using hspan, hdv, hval, hval2]
      · have hval : ((i.natAbs : Nat) : Int) = i := by omega
        have hval2 : |i| = i := by rw [Int.abs_eq_natAbs]; omega
        rw [hct] at hspan hdv
        simp only [stringifyV, intChars, if_neg hi, List.cons_append, hct]
        rw [skipWs_cons_not (isDigitC_not_ws hd)]
        simp +decide [hq1, hq2, hq3, hq4, hq5, hq6, hq7, hd,
          show spanDigits (c :: (t ++ rest)) = (c :: t, rest) by simpa using hspan, hdv, hval, hval2]
    | arr xs =>
      rw [parseVal.eq_def]
      cases xs with
      | nil =>
        obtain ⟨g', rfl⟩ : ∃ g', g = g' + 1 := by
          refine ⟨g - 1, ?_⟩
          simp [jsonCost, jsonCostItems] at hcost; omega
        simp +decide [stringifyV, stringifyItems, skipWs]
        rw [parseArrBody.eq_def]
        simp +decide [skipWs]
      | cons x xs' =>
        have hg1 : 2 + jsonCostItems (x :: xs') ≤ g + 1 := by
          simpa [jsonCost] using hcost
        obtain ⟨g', rfl⟩ : ∃ g', g = g' + 1 := ⟨g - 1, by simp [jsonCostItems] at hg1 ⊢; omega⟩
        have hIB := (ih g' (by omega)).2.1 (x :: xs') rest (by simp)
          (by simp [jsonCostItems] at hg1 ⊢; omega)
        obtain ⟨c, t, hx, hnw, hne, -⟩ := stringify_head x
        have hL : ∃ rr, stringifyItems (x :: xs') ++ ']' :: rest = c :: rr := by
          cases xs' with
          | nil => exact ⟨t ++ ']' :: rest, by simp [stringifyItems, hx]⟩
          | cons y ys => exact ⟨t ++ ',' :: stringifyItems (y :: ys) ++ ']' :: rest,
              by simp [stringifyItems, hx]⟩
        obtain ⟨rr, hLr⟩ := hL
        have hsk : skipWs (stringifyItems (x :: xs') ++ ']' :: rest) = c :: rr := by
          rw [hLr]; exact skipWs_cons_not hnw
        simp +decide [stringifyV, skipWs]
        rw [parseArrBody.eq_def]
        simp only [List.cons_append] at hsk
        simp only [hsk, if_neg hne]
        simp [hIB]
    | obj kvs =>
      rw [parseVal.eq_def]
      cases kvs with
      | nil =>
        obtain ⟨g', rfl⟩ : ∃ g', g = g' + 1 := by
          refine ⟨g - 1, ?_⟩
          simp [jsonCost, jsonCostMembers] at hcost; omega
        simp +decide [stringifyV, stringifyMembers, skipWs]
        rw [parseObjBody.eq_def]
        simp +decide [skipWs]
      | cons kv kvs' =>
        obtain ⟨k, v⟩ := kv
        have hg1 : 2 + jsonCostMembers ((k, v) :: kvs') ≤ g + 1 := by
          simpa [jsonCost] using hcost
        obtain ⟨g', rfl⟩ : ∃ g', g = g' + 1 := ⟨g - 1, by simp [jsonCostMembers] at hg1 ⊢; omega⟩
        have hIC := (ih g' (by omega)).2.2 ((k, v) :: kvs') rest (by simp)
          (by simp [jsonCostMembers] at hg1 ⊢; omega)
        have hsk : skipWs (stringifyMembers ((k, v) :: kvs') ++ '\x7d' :: rest) =
            stringifyMembers ((k, v) :: kvs') ++ '\x7d' :: rest := by
          rw [stringifyMembers_cons]
          exact skipWs_cons_not (by decide)
        simp +decide [stringifyV, skipWs]
        rw [parseObjBody.eq_def]
        simp only [List.cons_append, List.append_assoc] at hsk
        rw [stringifyMembers_cons] at hsk ⊢
        simp only [List.cons_append] at hsk ⊢
        simp only [hsk]
        rw [stringifyMembers_cons] at hIC
        simp only [List.append_assoc, List.cons_append] at hIC
        simp +decide [hIC]
  · intro xs rest hne hcost
    match xs, hne with
    | x :: xs', _ =>
    have hc1 : 1 + max (jsonCost x) (jsonCostItems xs') ≤ f := by
      simpa [jsonCostItems] using hcost
    obtain ⟨h, rfl⟩ : ∃ h, f = h + 1 := ⟨f - 1, by omega⟩
    rw [parseItems.eq_def]
    cases xs' with
    | nil =>
      have hv := (ih h (by omega)).1 x (']' :: rest) (by omega) (by rw [ndh_cons]; decide)
      simp only [stringifyItems, List.append_assoc, List.cons_append, List.nil_append] at hv ⊢
      simp +decide [hv, skipWs]
    | cons y ys =>
      have hv := (ih h (by omega)).1 x (',' :: (stringifyItems (y :: ys) ++ ']' :: rest))
        (by omega) (by rw [ndh_cons]; decide)
      have hB := (ih h (by omega)).2.1 (y :: ys) rest (by simp) (by omega)
      rw [stringifyItems_cons]
      simp only [List.append_assoc, List.cons_append]
      rw [hv]
      simp +decide [skipWs, hB]
  · intro kvs rest hne hcost
    match kvs, hne with
    | (k, v) :: kvs', _ =>
    have hc1 : 1 + max (jsonCost v) (jsonCostMembers kvs') ≤ f := by
      simpa [jsonCostMembers] using hcost
    obtain ⟨h, rfl⟩ : ∃ h, f = h + 1 := ⟨f - 1, by omega⟩
    rw [parseMembers.eq_def]
    rw [stringifyMembers_cons]
    have hmk : (⟨k.data⟩ : String) = k := rfl
    cases kvs' with
    | nil =>
      have hstr := parseStrBody_escape k.data (':' :: (stringifyV v ++ '\x7d' :: rest))
      have hv := (ih h (by omega)).1 v ('\x7d' :: rest) (by omega) (by rw [ndh_cons]; decide)
      simp only [List.append_assoc, List.cons_append, List.nil_append]
      simp +decide [skipWs, hstr, hv, hmk]
    | cons kv2 kvs2 =>
      have hstr := parseStrBody_escape k.data
        (':' :: (stringifyV v ++ ',' :: (stringifyMembers (kv2 :: kvs2) ++ '\x7d' :: rest)))
      have hv := (ih h (by omega)).1 v
        (',' :: (stringifyMembers (kv2 :: kvs2) ++ '\x7d' :: rest)) (by omega)
        (by rw [ndh_cons]; decide)
      have hC := (ih h (by omega)).2.2 (kv2 :: kvs2) rest (by simp) (by omega)
      simp only [List.append_assoc, List.cons_append]
      simp +decide [skipWs, hstr, hv, hmk, hC]

theorem intChars_ne_nil (i : Int) : intChars i ≠ [] := by
  by_cases hi : i < 0 <;> simp [intChars, hi, natChars_ne_nil]

mutual

theorem jsonCost_le : ∀ v : Json, jsonCost v + 1 ≤ 2 * (stringifyV v).length
  | .null => by simp [jsonCost, stringifyV]
  | .bool true => by simp [jsonCost, stringifyV]
  | .bool false => by simp [jsonCost, stringifyV]
  | .num i => by
    have h1 : 1 ≤ (intChars i).length := by
      have := intChars_ne_nil i
      cases h : intChars i with
      | nil => exact absurd h this
      | cons c t => simp
    simp [jsonCost, stringifyV]; omega
  | .str s => by simp [jsonCost, stringifyV]
  | .arr [] => by simp [jsonCost, jsonCostItems, stringifyV, stringifyItems]
  | .arr (x :: xs) => by
    have hB := jsonCostItems_le (x :: xs) (by simp)
    simp [jsonCost, stringifyV] at hB ⊢
    omega
  | .obj [] => by simp [jsonCost, jsonCostMembers, stringifyV, stringifyMembers]
  | .obj (kv :: kvs) => by
    have hC := jsonCostMembers_le (kv :: kvs) (by simp)
    simp [jsonCost, stringifyV] at hC ⊢
    omega

theorem jsonCostItems_le : ∀ xs : List Json, xs ≠ [] →
    jsonCostItems xs ≤ 2 * (stringifyItems xs).length
  | [x], _ => by
    have hA := jsonCost_le x
    simp [jsonCostItems, stringifyItems, jsonCostItems] at hA ⊢
    omega
  | x :: y :: ys, _ => by
    have hA := jsonCost_le x
    have hB := jsonCostItems_le (y :: ys) (by simp)
    simp [jsonCostItems, stringifyItems] at hA hB ⊢
    omega

theorem jsonCostMembers_le : ∀ kvs : List (String × Json), kvs ≠ [] →
    jsonCostMembers kvs ≤ 2 * (stringifyMembers kvs).length
  | [(k, v)], _ => by
    have hA := jsonCost_le v
    simp [jsonCostMembers, stringifyMembers] at hA ⊢
    omega
  | (k, v) :: kv2 :: kvs2, _ => by
    have hA := jsonCost_le v
    have hC := jsonCostMembers_le (kv2 :: kvs2) (by simp)
    simp [jsonCostMembers, stringifyMembers] at hA hC ⊢
    omega

end

/-- Round trip of the JSON embedding: parsing a printed value recovers the
value, for every `Json` value, with the fuel the top-level `Json.parse`
supplies. -/
theorem json_roundtrip (v : Json) : Json.parse (Json.stringify v) = some v := by
  unfold Json.parse Json.stringify
  have hA := (parse_print (2 * (stringifyV v).length + 2)).1 v []
    (by have := jsonCost_le v; omega) rfl
  simp only [List.append_nil] at hA
  have hd : (⟨stringifyV v⟩ : String).data = stringifyV v := rfl
  rw [hd, hA]
  simp [skipWs]

end AutoTestAI

namespace AutoTestAI

/-! ## Lemmas on the generation pipeline -/

theorem basicTemplate_isSome (req : TestGenerationRequest) (t : String)
    (h : isValidKind t = true) : ∃ b, generateBasicTestTemplate req t = some b := by
  have h5 : t = "unit" ∨ t = "bdd" ∨ t = "api" ∨ t = "ui" ∨ t = "performance" := by
    simpa [isValidKind, or_assoc] using h
  rcases h5 with rfl | rfl | rfl | rfl | rfl <;>
    (unfold generateBasicTestTemplate; split_ifs <;> simp_all +decide)

theorem liftSingle_ok {r : Except JsError GeneratedTest × Nat} {ts : List GeneratedTest} {kk : Nat}
    (h : liftSingle r = (.ok ts, kk)) : ts ≠ [] := by
  obtain ⟨e, k⟩ := r
  cases e with
  | ok t => simp [liftSingle] at h; simp [← h.1]
  | error e => simp [liftSingle] at h

theorem projectLoop_ne_nil (env : Env) (req : TestGenerationRequest) (analysis : Json)
    (c : Json) (cls : List Json) (k : Nat) :
    (projectLoop env req analysis (c :: cls) k).1 ≠ [] := by
  simp [projectLoop]

theorem generateProjectLevelUnitTests_ne_nil (env : Env) (req : TestGenerationRequest)
    (analysis : Json) (k : Nat) (xs : List Json)
    (hcl : analysis.getKey "testableClasses" = some (.arr xs)) (hlen : xs.length > 1) :
    (generateProjectLevelUnitTests env req analysis k).1 ≠ [] := by
  obtain ⟨x, xs', rfl⟩ : ∃ x xs', xs = x :: xs' := by
    cases xs with
    | nil => simp at hlen
    | cons x xs' => exact ⟨x, xs', rfl⟩
  unfold generateProjectLevelUnitTests
  rw [hcl]
  rw [show (10 : Nat) = 9 + 1 from rfl]
  simp only [List.take_succ_cons]
  cases hloop : projectLoop env req analysis (x :: xs'.take 9) k with
  | mk lts lk =>
    have hne : lts ≠ [] := by
      have h0 := projectLoop_ne_nil env req analysis x (xs'.take 9) k
      rw [hloop] at h0; exact h0
    simp only [hloop]
    split
    · simp
    · simpa using hne

theorem generateSpecificTestType_ok_ne_nil (env : Env) (req : TestGenerationRequest)
    (t : String) (analysis : Json) (k : Nat) (ts : List GeneratedTest) (kk : Nat)
    (hv : isValidKind t = true)
    (h : generateSpecificTestType env req t analysis k = (.ok ts, kk)) : ts ≠ [] := by
  have h5 : t = "unit" ∨ t = "bdd" ∨ t = "api" ∨ t = "ui" ∨ t = "performance" := by
    simpa [isValidKind, or_assoc] using hv
  rcases h5 with rfl | rfl | rfl | rfl | rfl
  · unfold generateSpecificTestType at h
    rw [if_pos rfl] at h
    split at h
    · rename_i xs heq
      split at h
      · rename_i hlen
        cases hpl : generateProjectLevelUnitTests env req analysis k with
        | mk pts pk =>
          rw [hpl] at h
          have hpts : pts = ts := by
            have h1 := congrArg Prod.fst h
            simpa using h1
          have := generateProjectLevelUnitTests_ne_nil env req analysis k xs heq hlen
          rw [hpl] at this
          rw [← hpts]
          exact this
      · exact liftSingle_ok h
    · exact liftSingle_ok h
  · unfold generateSpecificTestType at h
    rw [if_neg (by decide), if_pos rfl] at h
    exact liftSingle_ok h
  · unfold generateSpecificTestType at h
    rw [if_neg (by decide), if_neg (by decide), if_pos rfl] at h
    exact liftSingle_ok h
  · unfold generateSpecificTestType at h
    rw [if_neg (by decide), if_neg (by decide), if_neg (by decide), if_pos rfl] at h
    exact liftSingle_ok h
  · unfold generateSpecificTestType at h
    rw [if_neg (by decide), if_neg (by decide), if_neg (by decide), if_neg (by decide),
      if_pos rfl] at h
    exact liftSingle_ok h

theorem genForKind_ne_nil (env : Env) (req : TestGenerationRequest) (useAI : Bool)
    (analysis : Json) (t : String) (k : Nat) (hv : isValidKind t = true) :
    (genForKind env req useAI analysis t k).1 ≠ [] := by
  obtain ⟨b, hb⟩ := basicTemplate_isSome req t hv
  unfold genForKind
  cases useAI with
  | false => simp [generateTestFromTemplate, hb]
  | true =>
    cases hm : getAIModel env with
    | error e => simp [hb]
    | ok u =>
      cases hg : generateSpecificTestType env req t analysis k with
      | mk res kk =>
        cases res with
        | ok ts =>
          have := generateSpecificTestType_ok_ne_nil env req t analysis k ts kk hv hg
          simp [hg, this]
        | error e =>
          by_cases hq : isQuotaError e.message
          · simp [hg, hq, generateTestFromTemplate, hb]
          · simp [hg, hq, hb]

theorem perKindLoop_ne_nil (env : Env) (req : TestGenerationRequest) (useAI : Bool)
    (analysis : Json) (t : String) (ts : List String) (k : Nat)
    (hv : isValidKind t = true) :
    (perKindLoop env req useAI analysis (t :: ts) k).1 ≠ [] := by
  have h1 := genForKind_ne_nil env req useAI analysis t k hv
  cases hone : genForKind env req useAI analysis t k with
  | mk one k1 =>
    rw [hone] at h1
    cases hrest : perKindLoop env req useAI analysis ts k1 with
    | mk rest k2 => simp [perKindLoop, hone, hrest, h1]

theorem generateTestCases_ok (env : Env) (req : TestGenerationRequest) (k : Nat)
    (h1 : req.testTypes ≠ [])
    (h2 : ∀ t ∈ req.testTypes, isValidKind t = true) :
    ∃ ts kk, generateTestCases env req k = (.ok ts, kk) ∧ ts ≠ [] := by
  obtain ⟨t, ts', hT⟩ : ∃ t ts', req.testTypes = t :: ts' := by
    cases hT : req.testTypes with
    | nil => exact absurd hT h1
    | cons t ts' => exact ⟨t, ts', rfl⟩
  unfold generateTestCases
  obtain ⟨u, a, k1, hA⟩ : ∃ u a k1, analysisPhase env req k = (u, a, k1) := ⟨_, _, _, rfl⟩
  rw [hA, hT]
  have hnn := perKindLoop_ne_nil env req u a t ts' k1 (h2 t (by rw [hT]; exact List.mem_cons_self _ _))
  cases hL : perKindLoop env req u a (t :: ts') k1 with
  | mk tests k2 =>
    rw [hL] at hnn
    cases tests with
    | nil => exact absurd rfl hnn
    | cons a0 rest => exact ⟨a0 :: rest, k2, by simp [hL], by simp⟩

/-! ## Claim theorems -/

/-- C1: for every request whose `testTypes` list is non-empty and drawn
from the valid kinds (bdd, unit, api, ui, performance) and whose
`inputData` is non-empty, `generateTestCases` returns a non-empty list of
artifacts and does not throw, for every oracle environment — in particular
when the model call or the analysis fails, the template fallbacks absorb
the failure. -/
theorem C1_generateTestCases_total_nonempty (env : Env) (req : TestGenerationRequest) (k : Nat)
    (hne : req.testTypes ≠ [])
    (hvalid : ∀ t ∈ req.testTypes, isValidKind t = true)
    (_hdata : req.inputData ≠ "") :
    ∃ ts kk, generateTestCases env req k = (.ok ts, kk) ∧ ts ≠ [] :=
  generateTestCases_ok env req k hne hvalid

/-- Witness for C1 at a concrete request and an environment whose model
calls all fail. -/
theorem C1_witness :
    (let env : Env := { hasApiKey := false, gen := fun _ _ => .error ⟨"quota exceeded"⟩,
                        randQ := fun _ => 0, freshId := fun _ => "id0", nowIso := "now" }
     let req : TestGenerationRequest := { inputType := "user_story",
                                          inputData := "As a user, I want to login to the system",
                                          testTypes := ["unit", "bdd"], language := "java",
                                          additionalContext := none, framework := none,
                                          testingLibrary := none, aiModel := none }
     req.testTypes ≠ [] ∧ (∀ t ∈ req.testTypes, isValidKind t = true) ∧ req.inputData ≠ "" ∧
     ∃ ts kk, generateTestCases env req 0 = (.ok ts, kk) ∧ ts ≠ []) := by
  refine ⟨by decide, by decide, by decide, ?_⟩
  exact C1_generateTestCases_total_nonempty _ _ 0 (by decide) (by decide) (by decide)

/-- C2: a user at or above the plan limit receives the 429 response with
the `limit` and `current` fields, the database is unchanged, and no model
call is consumed (the quota check strictly precedes generation). -/
theorem C2_quota_precedes_generation
    (env : Env) (db : Db) (tok : Token) (secret : String) (now : Nat)
    (body : GenerateBody) (ip ua : Option String)
    (decoded : JwtClaims) (plan : String) (data : String) (tts : List String)
    (hver : verifyToken tok secret now = some decoded)
    (hdata : body.inputData = some data) (hne : data ≠ "")
    (hlen : data.data.length ≤ 5000)
    (htt : body.testTypes = some tts) (htne : tts ≠ [])
    (hplan : userPlan? db decoded.id = some plan)
    (hcnt : planLimit plan ≤ testCaseCountFor db decoded.id) :
    postGenerateTests env db (some tok) secret now body ip ua =
      (.limitReached (planLimit plan) (testCaseCountFor db decoded.id), db, 0) ∧
    (GenResponse.limitReached (planLimit plan) (testCaseCountFor db decoded.id)).status = 429 := by
  refine ⟨?_, rfl⟩
  simp only [postGenerateTests, hver, hdata, htt, Option.getD_some]
  rw [if_neg (by simp [hne, htne]), if_neg (by omega)]
  simp only [hplan]
  rw [if_pos hcnt]

/-- Witness for C2: a free-plan user with 100 stored test cases. -/
theorem C2_witness :
    (let tok : Token := .signed { id := "u1", email := "a@b.c", role := "user", plan := "free" } 0 1000 "sec"
     let row : TestCaseRow := { id := "t", project_id := none, name := "n", type := "unit",
                                content := "c", input_source := "i", ai_model_used := "m",
                                created_by := "u1", metadata := "\x7b\x7d" }
     let db : Db := { users := [("u1", "free")], testCases := List.replicate 100 row,
                      executions := [], auditLogs := [] }
     let env : Env := { hasApiKey := true, gen := fun _ _ => .ok "x", randQ := fun _ => 0,
                        freshId := fun _ => "id0", nowIso := "now" }
     let body : GenerateBody := { inputType := some "user_story", inputData := some "story",
                                  testTypes := some ["unit"], language := some "java",
                                  additionalContext := none, framework := none,
                                  testingLibrary := none, projectId := none, aiModel := none }
     verifyToken tok "sec" 5 = some { id := "u1", email := "a@b.c", role := "user", plan := "free" } ∧
     planLimit "free" ≤ testCaseCountFor db "u1" ∧
     (postGenerateTests env db (some tok) "sec" 5 body none none =
        (.limitReached (planLimit "free") (testCaseCountFor db "u1"), db, 0) ∧
      (GenResponse.limitReached (planLimit "free") (testCaseCountFor db "u1")).status = 429)) := by
  refine ⟨by decide, by decide, ?_⟩
  exact C2_quota_precedes_generation _ _ _ _ _ _ _ _ ⟨"u1", "a@b.c", "user", "free"⟩
    "free" "story" ["unit"] (by decide) rfl (by decide) (by decide) rfl (by decide)
    (by decide) (by decide)

/-- C3: when the model's analysis response is malformed JSON, `analyzeInput`
returns the deterministic fallback analysis object instead of propagating
the error, the analysis phase reports it, and generation still produces a
non-empty artifact list (no crash). -/
theorem C3_malformed_analysis_falls_back
    (env : Env) (req : TestGenerationRequest) (k : Nat) (text : String)
    (hkey : env.hasApiKey = true)
    (hit : req.inputType = "user_story")
    (hgen : env.gen k (analyzeInputCall req) = .ok text)
    (hbad : Json.parse (extractJsonFromResponse text) = none)
    (hne : req.testTypes ≠ [])
    (hvalid : ∀ t ∈ req.testTypes, isValidKind t = true) :
    analyzeInput env req k = (getFallbackAnalysis req, k + 1) ∧
    analysisPhase env req k = (true, getFallbackAnalysis req, k + 1) ∧
    ∃ ts kk, generateTestCases env req k = (.ok ts, kk) ∧ ts ≠ [] := by
  have h1 : analyzeInput env req k = (getFallbackAnalysis req, k + 1) := by
    unfold analyzeInput
    rw [hgen]
    simp only [hbad]
  refine ⟨h1, ?_, generateTestCases_ok env req k hne hvalid⟩
  unfold analysisPhase
  rw [hkey, hit]
  simp +decide [h1]

/-- Witness for C3 at a model response whose cleaned text parses to
nothing. -/
theorem C3_witness :
    (let env : Env := { hasApiKey := true, gen := fun _ _ => .ok "no json here",
                        randQ := fun _ => 0, freshId := fun _ => "id0", nowIso := "now" }
     let req : TestGenerationRequest := { inputType := "user_story",
                                          inputData := "As a user, I want to login",
                                          testTypes := ["unit"], language := "java",
                                          additionalContext := none, framework := none,
                                          testingLibrary := none, aiModel := none }
     env.hasApiKey = true ∧
     env.gen 0 (analyzeInputCall req) = .ok "no json here" ∧
     Json.parse (extractJsonFromResponse "no json here") = none ∧
     (analyzeInput env req 0 = (getFallbackAnalysis req, 1) ∧
      analysisPhase env req 0 = (true, getFallbackAnalysis req, 1) ∧
      ∃ ts kk, generateTestCases env req 0 = (.ok ts, kk) ∧ ts ≠ [])) := by
  refine ⟨rfl, rfl, rfl, ?_⟩
  exact C3_malformed_analysis_falls_back _ _ 0 "no json here" rfl rfl rfl rfl
    (by decide) (by decide)

theorem analysisPhase_useAI (env : Env) (req : TestGenerationRequest) (k : Nat)
    (hkey : env.hasApiKey = true) : (analysisPhase env req k).1 = true := by
  unfold analysisPhase
  rw [if_pos hkey]
  split_ifs
  · cases h : analyzeGitRepository env req.inputData k with
    | mk a kk => simp [h]
  · cases h : analyzePostmanCollection env req.inputData k with
    | mk a kk => simp [h]
  · cases h : analyzeWebPage env req.inputData k with
    | mk a kk => simp [h]
  · cases h : analyzeUploadedFiles env (parseUploadedFiles req.inputData) k with
    | mk a kk => simp [h]
  · cases h : analyzeInput env req k with
    | mk a kk => simp [h]

theorem genForKind_all_error (env : Env) (req : TestGenerationRequest) (analysis : Json)
    (t : String) (k : Nat)
    (hkey : env.hasApiKey = true)
    (hv : isValidKind t = true)
    (hgen : ∀ n c, ∃ e, env.gen n c = Except.error e ∧ isQuotaError e.message = false)
    (hA : ∀ xs, analysis.getKey "testableClasses" = some (.arr xs) → xs.length ≤ 1) :
    genForKind env req true analysis t k = ((generateBasicTestTemplate req t).toList, k + 1) := by
  have hm : getAIModel env = .ok () := by unfold getAIModel; rw [if_pos hkey]
  have h5 : t = "unit" ∨ t = "bdd" ∨ t = "api" ∨ t = "ui" ∨ t = "performance" := by
    simpa [isValidKind, or_assoc] using hv
  have hspec : ∃ e, generateSpecificTestType env req t analysis k = (.error e, k + 1) ∧
      isQuotaError e.message = false := by
    rcases h5 with rfl | rfl | rfl | rfl | rfl
    · have hsingle : ∃ e, liftSingle (generateSingleUnitTest env req analysis k) =
          (Except.error e, k + 1) ∧ isQuotaError e.message = false := by
        simp only [generateSingleUnitTest]
        obtain ⟨e, he, hq⟩ := hgen k _
        rw [he]
        exact ⟨e, rfl, hq⟩
      obtain ⟨e, he, hq⟩ := hsingle
      refine ⟨e, ?_, hq⟩
      unfold generateSpecificTestType
      rw [if_pos rfl]
      cases hg : analysis.getKey "testableClasses"
      · exact he
      · rename_i v
        cases v
        case arr xs =>
          have hle : ¬ xs.length > 1 := by have := hA xs hg; omega
          change (if xs.length > 1 then _ else _) = _
          rw [if_neg hle]
          exact he
        all_goals exact he
    · have hsingle : ∃ e, liftSingle (generateSingleBDDTest env req analysis k) =
          (Except.error e, k + 1) ∧ isQuotaError e.message = false := by
        simp only [generateSingleBDDTest]
        obtain ⟨e, he, hq⟩ := hgen k _
        rw [he]
        exact ⟨e, rfl, hq⟩
      obtain ⟨e, he, hq⟩ := hsingle
      refine ⟨e, ?_, hq⟩
      unfold generateSpecificTestType
      rw [if_neg (by decide), if_pos rfl]
      exact he
    · have hsingle : ∃ e, liftSingle (generateSingleAPITest env req analysis k) =
          (Except.error e, k + 1) ∧ isQuotaError e.message = false := by
        simp only [generateSingleAPITest]
        obtain ⟨e, he, hq⟩ := hgen k _
        rw [he]
        exact ⟨e, rfl, hq⟩
      obtain ⟨e, he, hq⟩ := hsingle
      refine ⟨e, ?_, hq⟩
      unfold generateSpecificTestType
      rw [if_neg (by decide), if_neg (by decide), if_pos rfl]
      exact he
    · have hsingle : ∃ e, liftSingle (generateSingleUITest env req analysis k) =
          (Except.error e, k + 1) ∧ isQuotaError e.message = false := by
        simp only [generateSingleUITest]
        obtain ⟨e, he, hq⟩ := hgen k _
        rw [he]
        exact ⟨e, rfl, hq⟩
      obtain ⟨e, he, hq⟩ := hsingle
      refine ⟨e, ?_, hq⟩
      unfold generateSpecificTestType
      rw [if_neg (by decide), if_neg (by decide), if_neg (by decide), if_pos rfl]
      exact he
    · have hsingle : ∃ e, liftSingle (generateSinglePerformanceTest env req analysis k) =
          (Except.error e, k + 1) ∧ isQuotaError e.message = false := by
        simp only [generateSinglePerformanceTest]
        obtain ⟨e, he, hq⟩ := hgen k _
        rw [he]
        exact ⟨e, rfl, hq⟩
      obtain ⟨e, he, hq⟩ := hsingle
      refine ⟨e, ?_, hq⟩
      unfold generateSpecificTestType
      rw [if_neg (by decide), if_neg (by decide), if_neg (by decide), if_neg (by decide),
        if_pos rfl]
      exact he
  obtain ⟨e, hs, hq⟩ := hspec
  simp [genForKind, hm, hs, hq]

/-- C4: when the underlying model call fails with a non-quota error for
every call (so each per-kind generation attempt throws), and the analysis
does not carry a multi-class `testableClasses` array (which would reroute
the unit kind through the class-template loop, absorbing the error
earlier), `generateTestCases` still succeeds and the first artifact of the
result is exactly the basic template fallback for the first requested
kind. -/
theorem C4_all_kinds_fail_basic_template (env : Env) (req : TestGenerationRequest) (k : Nat)
    (t0 : String) (rest : List String)
    (hkey : env.hasApiKey = true)
    (hT : req.testTypes = t0 :: rest)
    (hvalid : ∀ t ∈ req.testTypes, isValidKind t = true)
    (hgen : ∀ n c, ∃ e, env.gen n c = Except.error e ∧ isQuotaError e.message = false)
    (hA : ∀ xs, ((analysisPhase env req k).2.1).getKey "testableClasses" = some (.arr xs) →
      xs.length ≤ 1) :
    ∃ b tests kk, generateBasicTestTemplate req t0 = some b ∧
      generateTestCases env req k = (.ok tests, kk) ∧ tests.head? = some b := by
  have hv0 : isValidKind t0 = true := hvalid t0 (by rw [hT]; exact List.mem_cons_self _ _)
  obtain ⟨b, hb⟩ := basicTemplate_isSome req t0 hv0
  obtain ⟨u, a, k1, hP⟩ : ∃ u a k1, analysisPhase env req k = (u, a, k1) := ⟨_, _, _, rfl⟩
  have hu : u = true := by
    have := analysisPhase_useAI env req k hkey
    rw [hP] at this
    exact this
  subst hu
  have hA2 : ∀ xs, a.getKey "testableClasses" = some (.arr xs) → xs.length ≤ 1 := by
    intro xs hx
    exact hA xs (by rw [hP]; exact hx)
  have h1 := genForKind_all_error env req a t0 k1 hkey hv0 hgen hA2
  cases hrest : perKindLoop env req true a rest (k1 + 1) with
  | mk restL k2 =>
    have hloop : perKindLoop env req true a (t0 :: rest) k1 = (b :: restL, k2) := by
      simp [perKindLoop, h1, hrest, hb]
    refine ⟨b, b :: restL, k2, hb, ?_, rfl⟩
    simp only [generateTestCases, hP, hT, hloop]

/-- Witness for C4: a single-kind request against an environment whose
calls all fail with a non-quota error. -/
theorem C4_witness :
    (let env : Env := { hasApiKey := true, gen := fun _ _ => .error ⟨"boom"⟩,
                        randQ := fun _ => 0, freshId := fun _ => "id0", nowIso := "now" }
     let req : TestGenerationRequest := { inputType := "user_story", inputData := "story",
                                          testTypes := ["unit"], language := "java",
                                          additionalContext := none, framework := none,
                                          testingLibrary := none, aiModel := none }
     env.hasApiKey = true ∧ req.testTypes = ["unit"] ∧
     (∀ t ∈ req.testTypes, isValidKind t = true) ∧
     isQuotaError "boom" = false ∧
     ((analysisPhase env req 0).2.1).getKey "testableClasses" = none ∧
     ∃ b tests kk, generateBasicTestTemplate req "unit" = some b ∧
       generateTestCases env req 0 = (.ok tests, kk) ∧ tests.head? = some b) := by
  refine ⟨rfl, rfl, by decide, by decide, rfl, ?_⟩
  exact C4_all_kinds_fail_basic_template _ _ 0 "unit" [] rfl rfl (by decide)
    (fun n c => ⟨⟨"boom"⟩, rfl, by decide⟩)
    (fun xs h => nomatch h)

/-- C5: `generateFilename` and its helper `extractBaseName` are
deterministic functions of the test kind, the language and the input
data: two calls with equal argument tuples return exactly the same
string.  The embedding is pure exactly because the source functions read
no state: neither touches `Math.random`, the clock nor any global. -/
theorem C5_filename_deterministic (t1 l1 d1 t2 l2 d2 : String)
    (ht : t1 = t2) (hl : l1 = l2) (hd : d1 = d2) :
    generateFilename t1 l1 d1 = generateFilename t2 l2 d2 ∧
    extractBaseName d1 t1 = extractBaseName d2 t2 := by
  subst ht; subst hl; subst hd
  exact ⟨rfl, rfl⟩

/-- Witness for C5 at a concrete argument tuple, also exhibiting the
concrete filename the two equal calls share. -/
theorem C5_witness :
    ("unit" = "unit" ∧ "java" = "java" ∧
     "As a user, I want to login" = "As a user, I want to login" ∧
     (generateFilename "unit" "java" "As a user, I want to login" =
        generateFilename "unit" "java" "As a user, I want to login" ∧
      extractBaseName "As a user, I want to login" "unit" =
        extractBaseName "As a user, I want to login" "unit") ∧
     generateFilename "unit" "java" "As a user, I want to login" = "test-user-want-login.java") := by
  refine ⟨rfl, rfl, rfl, ?_, by rfl⟩
  exact C5_filename_deterministic "unit" "java" "As a user, I want to login" _ _ _ rfl rfl rfl

/-- C6: on the success path of POST /api/generate-tests, each saved row
stores `JSON.stringify` of the metadata object built from the artifact's
description, coverage array and dependencies array; the row comes back in
the caller's GET /api/test-cases listing, and its stored metadata string
parses back to exactly the serialized JSON structure, with the coverage
and dependency arrays intact and in order. -/
theorem C6_metadata_roundtrip
    (env : Env) (db : Db) (tok : Token) (secret : String) (now : Nat)
    (body : GenerateBody) (ip ua : Option String)
    (decoded : JwtClaims) (plan : String) (data : String) (tts : List String)
    (gts : List GeneratedTest) (k : Nat)
    (hver : verifyToken tok secret now = some decoded)
    (hdata : body.inputData = some data) (hne : data ≠ "")
    (hlen : data.data.length ≤ 5000)
    (htt : body.testTypes = some tts) (htne : tts ≠ [])
    (hplan : userPlan? db decoded.id = some plan)
    (hcnt : testCaseCountFor db decoded.id < planLimit plan)
    (hgen : generateTestCases env
        { inputType := body.inputType.getD "undefined", inputData := data,
          testTypes := tts, language := body.language.getD "undefined",
          additionalContext := body.additionalContext, framework := body.framework,
          testingLibrary := body.testingLibrary, aiModel := some "gemini-1.5-flash" } 0 =
        (.ok gts, k)) :
    ∃ saved db',
      postGenerateTests env db (some tok) secret now body ip ua =
        (.ok saved "Tests generated successfully (quota-optimized)"
          { current := testCaseCountFor db decoded.id + gts.length,
            limit := planLimit plan,
            remaining := (planLimit plan : Int) -
              ((testCaseCountFor db decoded.id + gts.length : Nat) : Int) }
          "Using efficient generation to manage API quotas. For more advanced AI features, consider upgrading your Google AI Studio plan.",
         db', k) ∧
      saved.length = gts.length ∧
      ∃ rowsOut, getTestCases db' (some tok) secret now = .ok rowsOut ∧
      ∀ s ∈ saved, ∃ row ∈ rowsOut,
        row.id = s.id ∧
        row.metadata = Json.stringify (metadataJson s.test body env.nowIso) ∧
        Json.parse row.metadata = some (metadataJson s.test body env.nowIso) ∧
        (metadataJson s.test body env.nowIso).getKey "coverage" =
          some (.arr (s.test.coverage.map Json.str)) ∧
        (metadataJson s.test body env.nowIso).getKey "dependencies" =
          some (.arr (s.test.dependencies.map Json.str)) := by
  refine ⟨gts.enum.map (fun p => ({ id := env.freshId p.1, test := p.2 } : SavedTest)),
    { db with
        testCases := db.testCases ++
          gts.enum.map (fun p => mkTestCaseRow env body decoded.id p.2 (env.freshId p.1)),
        auditLogs := db.auditLogs ++
          [{ user_id := decoded.id, action := "test_generation", resource_type := "test_cases",
             resource_id := String.intercalate ","
               ((gts.enum.map (fun p => ({ id := env.freshId p.1, test := p.2 } : SavedTest))).map
                 (fun s => s.id)),
             ip_address := ip.getD "unknown", user_agent := ua.getD "unknown" }] },
    ?_, by simp, ?_⟩
  · simp only [postGenerateTests, hver, hdata, htt, Option.getD_some]
    rw [if_neg (by simp [hne, htne]), if_neg (by omega)]
    simp only [hplan]
    rw [if_neg (by omega)]
    simp only [hgen]
  · have hget : ∀ db2 : Db, getTestCases db2 (some tok) secret now =
        TestCasesResponse.ok ((db2.testCases.filter fun r => r.created_by = decoded.id).reverse) := by
      intro db2
      simp only [getTestCases, hver]
    refine ⟨_, hget _, ?_⟩
    intro s hs
    obtain ⟨p, hp, rfl⟩ := List.mem_map.mp hs
    refine ⟨mkTestCaseRow env body decoded.id p.2 (env.freshId p.1), ?_, rfl, rfl,
      json_roundtrip _, ?_, ?_⟩
    · rw [List.mem_reverse, List.mem_filter]
      refine ⟨List.mem_append_right _ (List.mem_map.mpr ⟨p, hp, rfl⟩), by simp [mkTestCaseRow]⟩
    · simp +decide [metadataJson, Json.getKey]
    · simp +decide [metadataJson, Json.getKey]

/-- Witness for C6: one free-plan user, an empty table, and the
template-only environment (no API key), whose generation result is fully
computable. -/
theorem C6_witness :
    (let tok : Token := .signed { id := "u1", email := "a@b.c", role := "user", plan := "free" } 0 1000 "sec"
     let db : Db := { users := [("u1", "free")], testCases := [], executions := [], auditLogs := [] }
     let env : Env := { hasApiKey := false, gen := fun _ _ => .error ⟨"x"⟩, randQ := fun _ => 0,
                        freshId := fun n => "id" ++ (⟨natChars n⟩ : String), nowIso := "now" }
     let body : GenerateBody := { inputType := some "user_story", inputData := some "story",
                                  testTypes := some ["unit"], language := some "java",
                                  additionalContext := none, framework := none,
                                  testingLibrary := none, projectId := none, aiModel := none }
     let req : TestGenerationRequest :=
       { inputType := "user_story", inputData := "story", testTypes := ["unit"],
         language := "java", additionalContext := none, framework := none,
         testingLibrary := none, aiModel := some "gemini-1.5-flash" }
     verifyToken tok "sec" 5 = some { id := "u1", email := "a@b.c", role := "user", plan := "free" } ∧
     testCaseCountFor db "u1" < planLimit "free" ∧
     generateTestCases env req 0 =
       (.ok (generateTestFromTemplate req "unit" (getFallbackAnalysis req)), 0) ∧
     ∃ saved db',
       postGenerateTests env db (some tok) "sec" 5 body none none =
         (.ok saved "Tests generated successfully (quota-optimized)"
           { current := testCaseCountFor db "u1" +
               (generateTestFromTemplate req "unit" (getFallbackAnalysis req)).length,
             limit := planLimit "free",
             remaining := (planLimit "free" : Int) -
               ((testCaseCountFor db "u1" +
                 (generateTestFromTemplate req "unit" (getFallbackAnalysis req)).length : Nat) : Int) }
           "Using efficient generation to manage API quotas. For more advanced AI features, consider upgrading your Google AI Studio plan.",
          db', 0) ∧
       saved.length = (generateTestFromTemplate req "unit" (getFallbackAnalysis req)).length ∧
       ∃ rowsOut, getTestCases db' (some tok) "sec" 5 = .ok rowsOut ∧
       ∀ s ∈ saved, ∃ row ∈ rowsOut,
         row.id = s.id ∧
         row.metadata = Json.stringify (metadataJson s.test body env.nowIso) ∧
         Json.parse row.metadata = some (metadataJson s.test body env.nowIso) ∧
         (metadataJson s.test body env.nowIso).getKey "coverage" =
           some (.arr (s.test.coverage.map Json.str)) ∧
         (metadataJson s.test body env.nowIso).getKey "dependencies" =
           some (.arr (s.test.dependencies.map Json.str))) := by
  refine ⟨by decide, by decide, rfl, ?_⟩
  exact C6_metadata_roundtrip _ _ _ _ _ _ _ _ ⟨"u1", "a@b.c", "user", "free"⟩ "free" "story"
    ["unit"] _ 0 (by decide) rfl (by decide) (by decide) rfl (by decide) (by decide)
    (by decide) rfl

/-- C7: a free-plan user with 99 stored test cases submitting
`input_type="user_story"`, `testTypes=["unit"]`, `language="java"` gets a
successful response whose `usage` is `current = 99 + n`, `limit = 100`,
`remaining = 100 - (99 + n)` for `n` the number of generated artifacts;
the stored count rises to `99 + n`, and a second identical call (under any
environment — no model call is consumed) is refused with the 429 response
carrying `limit` and `current`. -/
theorem C7_free_plan_quota_scenario
    (env : Env) (db : Db) (tok : Token) (secret : String) (now : Nat)
    (body : GenerateBody) (ip ua : Option String)
    (decoded : JwtClaims) (data : String) (gts : List GeneratedTest) (k : Nat)
    (hver : verifyToken tok secret now = some decoded)
    (hit : body.inputType = some "user_story")
    (hdata : body.inputData = some data) (hne : data ≠ "")
    (hlen : data.data.length ≤ 5000)
    (htt : body.testTypes = some ["unit"]) (hlang : body.language = some "java")
    (hplan : userPlan? db decoded.id = some "free")
    (hcnt : testCaseCountFor db decoded.id = 99)
    (hgen : generateTestCases env
        { inputType := "user_story", inputData := data, testTypes := ["unit"],
          language := "java", additionalContext := body.additionalContext,
          framework := body.framework, testingLibrary := body.testingLibrary,
          aiModel := some "gemini-1.5-flash" } 0 = (.ok gts, k))
    (hgne : gts ≠ []) :
    ∃ saved db',
      postGenerateTests env db (some tok) secret now body ip ua =
        (.ok saved "Tests generated successfully (quota-optimized)"
          { current := 99 + gts.length, limit := 100,
            remaining := (100 : Int) - ((99 + gts.length : Nat) : Int) }
          "Using efficient generation to manage API quotas. For more advanced AI features, consider upgrading your Google AI Studio plan.",
         db', k) ∧
      testCaseCountFor db' decoded.id = 99 + gts.length ∧
      (∀ env2 : Env, postGenerateTests env2 db' (some tok) secret now body ip ua =
        (.limitReached 100 (99 + gts.length), db', 0)) ∧
      (GenResponse.limitReached 100 (99 + gts.length)).status = 429 := by
  have hfree : planLimit "free" = 100 := rfl
  refine ⟨gts.enum.map (fun p => ({ id := env.freshId p.1, test := p.2 } : SavedTest)),
    { db with
        testCases := db.testCases ++
          gts.enum.map (fun p => mkTestCaseRow env body decoded.id p.2 (env.freshId p.1)),
        auditLogs := db.auditLogs ++
          [{ user_id := decoded.id, action := "test_generation", resource_type := "test_cases",
             resource_id := String.intercalate ","
               ((gts.enum.map (fun p => ({ id := env.freshId p.1, test := p.2 } : SavedTest))).map
                 (fun s => s.id)),
             ip_address := ip.getD "unknown", user_agent := ua.getD "unknown" }] },
    ?_, ?_, ?_, rfl⟩
  · simp only [postGenerateTests, hver, hit, hdata, htt, hlang, Option.getD_some]
    rw [if_neg (by simp [hne]), if_neg (by omega)]
    simp only [hplan]
    rw [if_neg (by rw [hcnt, hfree]; omega)]
    simp only [hgen, hfree, hcnt]
    norm_cast
  · simp only [testCaseCountFor, List.filter_append, List.length_append]
    have h1 : (db.testCases.filter fun r => r.created_by = decoded.id).length = 99 := hcnt
    have h2 : ((gts.enum.map fun p => mkTestCaseRow env body decoded.id p.2 (env.freshId p.1)).filter
        fun r => r.created_by = decoded.id) =
        gts.enum.map fun p => mkTestCaseRow env body decoded.id p.2 (env.freshId p.1) := by
      apply List.filter_eq_self.mpr
      intro a ha
      obtain ⟨p, hp, rfl⟩ := List.mem_map.mp ha
      simp [mkTestCaseRow]
    rw [h1, h2]
    simp
  · intro env2
    have hcnt2 : testCaseCountFor
        { db with
            testCases := db.testCases ++
              gts.enum.map (fun p => mkTestCaseRow env body decoded.id p.2 (env.freshId p.1)),
            auditLogs := db.auditLogs ++
              [{ user_id := decoded.id, action := "test_generation",
                 resource_type := "test_cases",
                 resource_id := String.intercalate ","
                   ((gts.enum.map (fun p =>
                     ({ id := env.freshId p.1, test := p.2 } : SavedTest))).map (fun s => s.id)),
                 ip_address := ip.getD "unknown", user_agent := ua.getD "unknown" }] }
        decoded.id = 99 + gts.length := by
      simp only [testCaseCountFor, List.filter_append, List.length_append]
      have h1 : (db.testCases.filter fun r => r.created_by = decoded.id).length = 99 := hcnt
      have h2 : ((gts.enum.map fun p => mkTestCaseRow env body decoded.id p.2 (env.freshId p.1)).filter
          fun r => r.created_by = decoded.id) =
          gts.enum.map fun p => mkTestCaseRow env body decoded.id p.2 (env.freshId p.1) := by
        apply List.filter_eq_self.mpr
        intro a ha
        obtain ⟨p, hp, rfl⟩ := List.mem_map.mp ha
        simp [mkTestCaseRow]
      rw [h1, h2]
      simp
    have hglen : 1 ≤ gts.length := by
      cases gts with
      | nil => exact absurd rfl hgne
      | cons a l => simp
    simp only [postGenerateTests, hver, hit, hdata, htt, hlang, Option.getD_some]
    rw [if_neg (by simp [hne]), if_neg (by omega)]
    simp only [show userPlan?
        { db with
            testCases := db.testCases ++
              gts.enum.map (fun p => mkTestCaseRow env body decoded.id p.2 (env.freshId p.1)),
            auditLogs := db.auditLogs ++
              [{ user_id := decoded.id, action := "test_generation",
                 resource_type := "test_cases",
                 resource_id := String.intercalate ","
                   ((gts.enum.map (fun p =>
                     ({ id := env.freshId p.1, test := p.2 } : SavedTest))).map (fun s => s.id)),
                 ip_address := ip.getD "unknown", user_agent := ua.getD "unknown" }] }
        decoded.id = some "free" from hplan]
    rw [if_pos (by rw [hcnt2, hfree]; omega)]
    rw [hcnt2, hfree]

/-- Witness for C7: the concrete 99/100 scenario, where exactly one
template artifact is generated and `usage.remaining` comes out `0`. -/
theorem C7_witness :
    (let tok : Token := .signed { id := "u1", email := "a@b.c", role := "user", plan := "free" } 0 1000 "sec"
     let row : TestCaseRow := { id := "t", project_id := none, name := "n", type := "unit",
                                content := "c", input_source := "i", ai_model_used := "m",
                                created_by := "u1", metadata := "null" }
     let db : Db := { users := [("u1", "free")], testCases := List.replicate 99 row,
                      executions := [], auditLogs := [] }
     let env : Env := { hasApiKey := false, gen := fun _ _ => .error ⟨"x"⟩, randQ := fun _ => 0,
                        freshId := fun n => "id" ++ (⟨natChars n⟩ : String), nowIso := "now" }
     let body : GenerateBody := { inputType := some "user_story", inputData := some "story",
                                  testTypes := some ["unit"], language := some "java",
                                  additionalContext := none, framework := none,
                                  testingLibrary := none, projectId := none, aiModel := none }
     let req : TestGenerationRequest :=
       { inputType := "user_story", inputData := "story", testTypes := ["unit"],
         language := "java", additionalContext := none, framework := none,
         testingLibrary := none, aiModel := some "gemini-1.5-flash" }
     let gts : List GeneratedTest := generateTestFromTemplate req "unit" (getFallbackAnalysis req)
     testCaseCountFor db "u1" = 99 ∧
     generateTestCases env req 0 = (.ok gts, 0) ∧
     gts.length = 1 ∧
     (100 : Int) - ((99 + gts.length : Nat) : Int) = 0 ∧
     ∃ saved db',
       postGenerateTests env db (some tok) "sec" 5 body none none =
         (.ok saved "Tests generated successfully (quota-optimized)"
           { current := 99 + gts.length, limit := 100,
             remaining := (100 : Int) - ((99 + gts.length : Nat) : Int) }
           "Using efficient generation to manage API quotas. For more advanced AI features, consider upgrading your Google AI Studio plan.",
          db', 0) ∧
       testCaseCountFor db' "u1" = 99 + gts.length ∧
       (∀ env2 : Env, postGenerateTests env2 db' (some tok) "sec" 5 body none none =
         (.limitReached 100 (99 + gts.length), db', 0)) ∧
       (GenResponse.limitReached 100 (99 + gts.length)).status = 429) := by
  refine ⟨by decide, rfl, rfl, rfl, ?_⟩
  exact C7_free_plan_quota_scenario _ _ _ _ _ _ _ _ ⟨"u1", "a@b.c", "user", "free"⟩ "story" _ 0
    (by decide) rfl rfl (by decide) (by decide) rfl rfl (by decide) (by decide) rfl
    (by decide)

/-- C8: `generateToken` signs exactly the payload `{id, email, role,
plan}` of the user with a seven-day expiry, and `verifyToken` fails
closed: whenever `jwt.verify` throws (malformed token, wrong signature or
expired token), `verifyToken` returns `none` rather than a partial
user. -/
theorem C8_token_sign_verify_fail_closed
    (u : AuthUser) (secret : String) (now : Nat)
    (t : Token) (s2 : String) (n2 : Nat) (e : JsError)
    (hfail : jwtVerify t s2 n2 = .error e) :
    generateToken u secret now =
      .signed { id := u.id, email := u.email, role := u.role, plan := u.plan }
        now (now + 7 * 24 * 60 * 60) secret ∧
    verifyToken t s2 n2 = none := by
  refine ⟨rfl, ?_⟩
  unfold verifyToken
  rw [hfail]

/-- Witness for C8: a concrete user, and a token signed under a different
secret, whose verification throws `invalid signature`. -/
theorem C8_witness :
    (jwtVerify (.signed ⟨"u1", "a@b.c", "user", "free"⟩ 0 1000 "other") "sec" 5 =
       .error ⟨"invalid signature"⟩ ∧
     (generateToken ⟨"u1", "a@b.c", "n", "user", "free"⟩ "sec" 0 =
        .signed { id := "u1", email := "a@b.c", role := "user", plan := "free" }
          0 (0 + 7 * 24 * 60 * 60) "sec" ∧
      verifyToken (.signed ⟨"u1", "a@b.c", "user", "free"⟩ 0 1000 "other") "sec" 5 = none)) := by
  refine ⟨rfl, ?_⟩
  exact C8_token_sign_verify_fail_closed ⟨"u1", "a@b.c", "n", "user", "free"⟩ "sec" 0
    (.signed ⟨"u1", "a@b.c", "user", "free"⟩ 0 1000 "other") "sec" 5 ⟨"invalid signature"⟩ rfl

theorem jsonLinesLoop_found : ∀ (ls : List String) (acc : Int),
    jsonLinesLoop ls acc true = takeUntilZero ls acc := by
  intro ls
  induction ls with
  | nil => intro acc; rfl
  | cons l rest ih =>
    intro acc
    unfold jsonLinesLoop takeUntilZero
    simp only [Bool.true_or]
    by_cases h : acc + braceDelta l = 0
    · simp [h]
    · simp [h, ih]

theorem jsonLinesLoop_head_found (l0 : String) (rest : List String)
    (hc : l0.data.contains '\x7b' = true) :
    jsonLinesLoop (l0 :: rest) 0 false = takeUntilZero (l0 :: rest) 0 := by
  unfold jsonLinesLoop takeUntilZero
  simp only [hc, Bool.false_or]
  by_cases hz : (0 : Int) + braceDelta l0 = 0
  · simp [hz]
  · simp [hz, jsonLinesLoop_found]

theorem firstIdxOf_drop : ∀ (l : List Char) (c : Char) (i : Nat),
    firstIdxOf l c = some i → ∃ t, l.drop i = c :: t := by
  intro l
  induction l with
  | nil => intro c i h; simp [firstIdxOf] at h
  | cons x xs ih =>
    intro c i h
    unfold firstIdxOf at h
    by_cases hx : x = c
    · rw [if_pos hx] at h
      obtain rfl : (0 : Nat) = i := by simpa using h
      exact ⟨xs, by simp [hx]⟩
    · rw [if_neg hx] at h
      cases hf : firstIdxOf xs c with
      | none => rw [hf] at h; simp at h
      | some j =>
        rw [hf] at h
        simp at h
        obtain ⟨t, ht⟩ := ih c j hf
        subst h
        exact ⟨t, ht⟩

theorem splitNlAux_head : ∀ (cs acc : List Char),
    ∃ l0 rest suffix, splitNlAux acc cs = l0 :: rest ∧ l0.data = acc.reverse ++ suffix := by
  intro cs
  induction cs with
  | nil => intro acc; exact ⟨⟨acc.reverse⟩, [], [], rfl, by simp⟩
  | cons c cs ih =>
    intro acc
    by_cases hc : c = '\n'
    · exact ⟨⟨acc.reverse⟩, splitNlAux [] cs, [], by simp [splitNlAux, hc], by simp⟩
    · obtain ⟨l0, rest, suffix, h1, h2⟩ := ih (c :: acc)
      exact ⟨l0, rest, c :: suffix, by simp [splitNlAux, hc, h1], by simp [h2]⟩

/-- C9 (amended description): whenever the fence-stripped text has a first
`\x7b` strictly before its last `\x7d`, so that `amendedExtractJson`
produces a result, `extractJsonFromResponse` returns exactly that result:
the per-line brace scan runs on the substring from the first `\x7b`
through the last `\x7d` of the fence-stripped text (anything after the
last `\x7d` is dropped, even on the stopping line), keeps lines through
the first line at which the running count returns to zero — all of them
when it never does — and trims the join. -/
theorem C9_amended_extract_json (text r : String)
    (h : amendedExtractJson text = some r) :
    extractJsonFromResponse text = r := by
  cases hf : firstIdxOf (stripCodeFences text).data '\x7b' with
  | none =>
    simp only [amendedExtractJson, hf] at h
    exact Option.noConfusion h
  | some js =>
    cases hl : lastIdxOf (stripCodeFences text).data '\x7d' with
    | none =>
      simp only [amendedExtractJson, hf, hl] at h
      exact Option.noConfusion h
    | some je =>
      simp only [amendedExtractJson, hf, hl] at h
      by_cases hlt : js < je
      · rw [if_pos hlt] at h
        have hr := Option.some.inj h
        obtain ⟨t, ht⟩ := firstIdxOf_drop _ _ _ hf
        obtain ⟨m, hm⟩ : ∃ m, je + 1 - js = m + 1 := ⟨je - js, by omega⟩
        have hreg : (((stripCodeFences text).data.drop js).take (je + 1 - js)) =
            '\x7b' :: t.take m := by
          rw [ht, hm, List.take_succ_cons]
        obtain ⟨l0, rest, suffix, hsp, hdata⟩ := splitNlAux_head (t.take m) ['\x7b']
        have hsplit : splitNl
            (⟨((stripCodeFences text).data.drop js).take (je + 1 - js)⟩ : String) =
            l0 :: rest := by
          show splitNlAux [] (((stripCodeFences text).data.drop js).take (je + 1 - js)) =
            l0 :: rest
          rw [hreg]
          rw [show splitNlAux [] ('\x7b' :: t.take m) = splitNlAux ['\x7b'] (t.take m) from rfl]
          exact hsp
        have hcont : l0.data.contains '\x7b' = true := by
          rw [hdata]
          simp
        simp only [extractJsonFromResponse, hf, hl]
        rw [if_pos hlt, hsplit, jsonLinesLoop_head_found l0 rest hcont, ← hr, hsplit]
      · rw [if_neg hlt] at h
        exact absurd h (by simp)

/-- C9 counterexample to the original description: on the input
`"\x7ba\x7d x"` the code truncates at the last `\x7d` and returns
`"\x7ba\x7d"`, while the claimed rule — the result runs from the first
`\x7b` to the end of the first line whose running brace count is zero —
yields the whole line `"\x7ba\x7d x"`. -/
theorem C9_counterexample :
    extractJsonFromResponse "\x7ba\x7d x" = "\x7ba\x7d" ∧
    claimExtractJson "\x7ba\x7d x" = some "\x7ba\x7d x" ∧
    some (extractJsonFromResponse "\x7ba\x7d x") ≠ claimExtractJson "\x7ba\x7d x" := by
  refine ⟨by decide, by decide, by decide⟩

/-- Witness for the amended C9 theorem at the counterexample input. -/
theorem C9_witness :
    amendedExtractJson "\x7ba\x7d x" = some "\x7ba\x7d" ∧
    extractJsonFromResponse "\x7ba\x7d x" = "\x7ba\x7d" :=
  ⟨by decide, C9_amended_extract_json "\x7ba\x7d x" "\x7ba\x7d" (by decide)⟩

theorem execLoop_spec (env : Env) (uid : String) (environment : Option String)
    (hrand : ∀ n, 0 ≤ env.randQ n ∧ env.randQ n < 1) :
    ∀ (ids : List String) (r : Nat),
      ((execLoop env uid environment ids r).1.map (fun row => row.test_case_id) = ids) ∧
      ∀ row ∈ (execLoop env uid environment ids r).1,
        (row.status = "passed" ∨ row.status = "failed") ∧
        1000 ≤ row.duration ∧ row.duration ≤ 5999 := by
  intro ids
  induction ids with
  | nil => intro r; exact ⟨rfl, by simp [execLoop]⟩
  | cons tc tcs ih =>
    intro r
    obtain ⟨ih1, ih2⟩ := ih (r + 3)
    cases hrest : execLoop env uid environment tcs (r + 3) with
    | mk rest r2 =>
      rw [hrest] at ih1 ih2
      have hhead : (execOne env uid environment tc r).status = "passed" ∨
          (execOne env uid environment tc r).status = "failed" := by
        have hst : (execOne env uid environment tc r).status =
            (if env.randQ (r + 2) > (1 : ℚ) / 5 then "passed" else "failed") := rfl
        rw [hst]
        by_cases hq : env.randQ (r + 2) > (1 : ℚ) / 5
        · left; rw [if_pos hq]
        · right; rw [if_neg hq]
      have hdur : 1000 ≤ (execOne env uid environment tc r).duration ∧
          (execOne env uid environment tc r).duration ≤ 5999 := by
        have he : (execOne env uid environment tc r).duration =
            ⌊env.randQ (r + 1) * 5000⌋ + 1000 := rfl
        obtain ⟨h0, h1⟩ := hrand (r + 1)
        have hlow : (0 : Int) ≤ ⌊env.randQ (r + 1) * 5000⌋ := by
          apply Int.le_floor.mpr
          push_cast
          exact mul_nonneg h0 (by norm_num)
        have hhigh : ⌊env.randQ (r + 1) * 5000⌋ < 5000 := by
          apply Int.floor_lt.mpr
          push_cast
          nlinarith
        rw [he]
        omega
      constructor
      · simp only [execLoop, hrest, List.map_cons, ih1]
        rfl
      · intro row hrow
        simp only [execLoop, hrest] at hrow
        rcases List.mem_cons.mp hrow with rfl | hmem
        · exact ⟨hhead, hdur⟩
        · exact ih2 row hmem

/-- C10: an authenticated POST /api/executions with a non-empty
`testCaseIds` list (under random draws in `[0,1)`, as `Math.random`
guarantees) inserts exactly one execution row per supplied test-case id,
in input order; every inserted row's status is `"passed"` or `"failed"`
and its duration lies between 1000 and 5999 inclusive; and the response
echoes exactly these rows. -/
theorem C10_executions_invariants
    (env : Env) (db : Db) (tok : Token) (secret : String) (now : Nat)
    (body : ExecBody) (decoded : JwtClaims) (ids : List String)
    (hver : verifyToken tok secret now = some decoded)
    (hids : body.testCaseIds = some ids) (hne : ids ≠ [])
    (hrand : ∀ n, 0 ≤ env.randQ n ∧ env.randQ n < 1) :
    ∃ rows r,
      postExecutions env db (some tok) secret now body =
        (.ok (rows.map echoOf) "Tests executed successfully",
         { db with executions := db.executions ++ rows }, r) ∧
      rows.map (fun row => row.test_case_id) = ids ∧
      ∀ row ∈ rows,
        (row.status = "passed" ∨ row.status = "failed") ∧
        1000 ≤ row.duration ∧ row.duration ≤ 5999 := by
  obtain ⟨a, l, rfl⟩ : ∃ a l, ids = a :: l := by
    cases ids with
    | nil => exact absurd rfl hne
    | cons a l => exact ⟨a, l, rfl⟩
  obtain ⟨hmap, hrows⟩ := execLoop_spec env decoded.id body.environment hrand (a :: l) 0
  cases hloop : execLoop env decoded.id body.environment (a :: l) 0 with
  | mk rows r =>
    rw [hloop] at hmap hrows
    refine ⟨rows, r, ?_, hmap, hrows⟩
    simp only [postExecutions, hver, hids, hloop]

/-- Witness for C10: two test-case ids under the constant-zero random
oracle (both runs come out `"failed"` with duration 1000). -/
theorem C10_witness :
    (let tok : Token := .signed { id := "u1", email := "a@b.c", role := "user", plan := "free" } 0 1000 "sec"
     let db : Db := { users := [("u1", "free")], testCases := [], executions := [], auditLogs := [] }
     let env : Env := { hasApiKey := true, gen := fun _ _ => .ok "x", randQ := fun _ => 0,
                        freshId := fun n => "id" ++ (⟨natChars n⟩ : String), nowIso := "now" }
     let body : ExecBody := { testCaseIds := some ["tc1", "tc2"], environment := some "staging" }
     verifyToken tok "sec" 5 = some { id := "u1", email := "a@b.c", role := "user", plan := "free" } ∧
     body.testCaseIds = some ["tc1", "tc2"] ∧ (["tc1", "tc2"] : List String) ≠ [] ∧
     (∀ n : Nat, (0 : ℚ) ≤ env.randQ n ∧ env.randQ n < 1) ∧
     ∃ rows r,
       postExecutions env db (some tok) "sec" 5 body =
         (.ok (rows.map echoOf) "Tests executed successfully",
          { db with executions := db.executions ++ rows }, r) ∧
       rows.map (fun row => row.test_case_id) = ["tc1", "tc2"] ∧
       ∀ row ∈ rows,
         (row.status = "passed" ∨ row.status = "failed") ∧
         1000 ≤ row.duration ∧ row.duration ≤ 5999) := by
  refine ⟨by decide, rfl, by decide,
    fun n => ⟨le_refl 0, show (0 : ℚ) < 1 by decide⟩, ?_⟩
  exact C10_executions_invariants _ _ _ _ _ _ ⟨"u1", "a@b.c", "user", "free"⟩ ["tc1", "tc2"]
    (by decide) rfl (by decide) (fun n => ⟨le_refl 0, show (0 : ℚ) < 1 by decide⟩)

end AutoTestAI
